import Mathlib

/-!
# Clearance-gated registry: a shallow embedding

The repository holds three variants of one console program.  Two of them carry
the access-control and inventory logic studied here:

* `Military_project.cpp`, embedded in the namespace `MilitaryProject`;
* `Military_project_endofsemester.cpp`, embedded in the namespace `EndOfSemester`.

Conventions of the embedding.

* `enum class AccessLevel` is the four enumerators with their integer values
  (`toInt`); every comparison in the source casts to `int` first, and so does the
  embedding.  A level obtained by `static_cast` from an integer outside 1..4 has
  no counterpart here.
* A C++ `int` is an `Int` value.  The sums that `addWeapon` and `addSupply` store
  are reduced to the 32 bits of `int` by `wrapInt`: two's-complement wraparound,
  the result the compiled programs produce (the C++ standard leaves signed
  overflow undefined).  The other `int` operations, the difference taken by
  `removeWeapon` and `removeSupply` and the sums of `operator+`, are taken
  exactly; they agree with the programs whenever the result lies within
  `INT_MIN..INT_MAX`.
* `std::vector` is `List`, `std::map<string, V>` is `StdMap V`: a list of
  key/value pairs in strictly ascending key order, the order in which the
  source iterates over it.
* A member function that mutates `*this` returns the new object; one that also
  writes to `cout` returns the written text as a second component.
-/

/-! ## Clearance levels -/

/-- The enumeration `enum class AccessLevel { CONFIDENTIAL = 1, SECRET, TOP_SECRET, SCI }`. -/
inductive AccessLevel where
  | CONFIDENTIAL
  | SECRET
  | TOP_SECRET
  | SCI
  deriving DecidableEq, Repr, Inhabited

namespace AccessLevel

/-- The value of `static_cast<int>(level)`: the enumerators count up from 1. -/
def toInt : AccessLevel → Int
  | CONFIDENTIAL => 1
  | SECRET => 2
  | TOP_SECRET => 3
  | SCI => 4

end AccessLevel

namespace ClearanceScale

open AccessLevel

/-- The comparison of the specification, written out from the order
`CONFIDENTIAL < SECRET < TOP_SECRET < SCI`; `Ordering.lt` is LESS, `Ordering.eq`
is EQUAL and `Ordering.gt` is GREATER.  It does not use the integer values. -/
def compare : AccessLevel → AccessLevel → Ordering
  | CONFIDENTIAL, CONFIDENTIAL => Ordering.eq
  | CONFIDENTIAL, SECRET => Ordering.lt
  | CONFIDENTIAL, TOP_SECRET => Ordering.lt
  | CONFIDENTIAL, SCI => Ordering.lt
  | SECRET, CONFIDENTIAL => Ordering.gt
  | SECRET, SECRET => Ordering.eq
  | SECRET, TOP_SECRET => Ordering.lt
  | SECRET, SCI => Ordering.lt
  | TOP_SECRET, CONFIDENTIAL => Ordering.gt
  | TOP_SECRET, SECRET => Ordering.gt
  | TOP_SECRET, TOP_SECRET => Ordering.eq
  | TOP_SECRET, SCI => Ordering.lt
  | SCI, CONFIDENTIAL => Ordering.gt
  | SCI, SECRET => Ordering.gt
  | SCI, TOP_SECRET => Ordering.gt
  | SCI, SCI => Ordering.eq

/-- The rule `meetsOrExceeds(granted, required)` of the specification:
`compare(granted, required) != LESS`. -/
def meetsOrExceeds (granted required : AccessLevel) : Bool :=
  compare granted required != Ordering.lt

end ClearanceScale

/-! ## The type `int` -/

/-- The least value of a 32-bit `int`. -/
def INT_MIN : Int := -2147483648

/-- The greatest value of a 32-bit `int`. -/
def INT_MAX : Int := 2147483647

/-- The `int` in which a sum is stored: the value congruent to it modulo 2^32
within `INT_MIN..INT_MAX`. -/
def wrapInt (x : Int) : Int := (x + 2147483648) % 4294967296 - 2147483648

/-- The value lies within `INT_MIN..INT_MAX`. -/
def inInt (x : Int) : Bool := decide (INT_MIN ≤ x ∧ x ≤ INT_MAX)

/-! ## `std::map<string, V>` -/

/-- The order `a < b` of `std::string`: lexicographic comparison of the two
character sequences. -/
def keyLess (a b : String) : Prop := a.toList < b.toList

instance : DecidableRel keyLess := fun a b => inferInstanceAs (Decidable (a.toList < b.toList))

namespace StdMap

/-- Lookup in a list of key/value pairs: the value of the first pair with key `k`. -/
def findIn {V : Type} : List (String × V) → String → Option V
  | [], _ => none
  | (k', v) :: rest, k => if k' = k then some v else findIn rest k

/-- Insert-or-assign in a list of pairs kept in ascending key order. -/
def setIn {V : Type} : List (String × V) → String → V → List (String × V)
  | [], k, v => [(k, v)]
  | (k', v') :: rest, k, v =>
    if keyLess k k' then (k, v) :: (k', v') :: rest
    else if k = k' then (k, v) :: rest
    else (k', v') :: setIn rest k v

/-- Removal of the pair with key `k`, when there is one. -/
def eraseIn {V : Type} : List (String × V) → String → List (String × V)
  | [], _ => []
  | (k', v') :: rest, k => if k' = k then rest else (k', v') :: eraseIn rest k

/-- Strictly ascending keys: the representation invariant of `std::map`. -/
abbrev Ascending {V : Type} (l : List (String × V)) : Prop :=
  l.Pairwise (fun a b => keyLess a.1 b.1)

end StdMap

theorem keyLess_iff (a b : String) : keyLess a b ↔ a < b :=
  String.lt_iff_toList_lt.symm

theorem keyLess_irrefl (a : String) : ¬ keyLess a a := by
  rw [keyLess_iff]; exact lt_irrefl a

theorem keyLess_trans {a b c : String} (h1 : keyLess a b) (h2 : keyLess b c) :
    keyLess a c := by
  rw [keyLess_iff] at *; exact lt_trans h1 h2

theorem keyLess_of_not {a b : String} (h1 : ¬ keyLess a b) (h2 : a ≠ b) : keyLess b a := by
  rw [keyLess_iff] at *; exact lt_of_le_of_ne (not_lt.mp h1) (Ne.symm h2)

namespace StdMap

theorem mem_setIn {V : Type} {l : List (String × V)} {k : String} {v : V} {p : String × V}
    (h : p ∈ setIn l k v) : p = (k, v) ∨ p ∈ l := by
  induction l with
  | nil => simpa [setIn] using h
  | cons hd tl ih =>
    obtain ⟨k', v'⟩ := hd
    unfold setIn at h
    split_ifs at h with h1 h2
    · simpa using h
    · rcases List.mem_cons.mp h with h | h
      · exact Or.inl h
      · exact Or.inr (List.mem_cons_of_mem _ h)
    · rcases List.mem_cons.mp h with h | h
      · exact Or.inr (h ▸ List.mem_cons_self _ _)
      · rcases ih h with h | h
        · exact Or.inl h
        · exact Or.inr (List.mem_cons_of_mem _ h)

theorem ascending_setIn {V : Type} {l : List (String × V)} (k : String) (v : V)
    (hl : Ascending l) : Ascending (setIn l k v) := by
  induction l with
  | nil => simp [setIn, Ascending]
  | cons hd tl ih =>
    obtain ⟨k', v'⟩ := hd
    have hhd := (List.pairwise_cons.mp hl).1
    have htl := (List.pairwise_cons.mp hl).2
    unfold setIn
    split_ifs with h1 h2
    · refine List.pairwise_cons.mpr ⟨?_, hl⟩
      intro p hp
      rcases List.mem_cons.mp hp with hp | hp
      · subst hp; exact h1
      · exact keyLess_trans h1 (hhd p hp)
    · subst h2
      exact List.pairwise_cons.mpr ⟨hhd, htl⟩
    · refine List.pairwise_cons.mpr ⟨?_, ih htl⟩
      intro p hp
      rcases mem_setIn hp with hp | hp
      · subst hp; exact keyLess_of_not h1 h2
      · exact hhd p hp

theorem eraseIn_sublist {V : Type} (l : List (String × V)) (k : String) :
    List.Sublist (eraseIn l k) l := by
  induction l with
  | nil => simp [eraseIn]
  | cons hd tl ih =>
    obtain ⟨k', v'⟩ := hd
    unfold eraseIn
    split_ifs with h1
    · exact List.sublist_cons_self _ _
    · exact List.Sublist.cons₂ _ ih

theorem ascending_eraseIn {V : Type} {l : List (String × V)} (k : String)
    (hl : Ascending l) : Ascending (eraseIn l k) :=
  List.Pairwise.sublist (eraseIn_sublist l k) hl

end StdMap

/-- A `std::map<string, V>`: its pairs in iteration order, which is strictly
ascending key order. -/
structure StdMap (V : Type) where
  entries : List (String × V)
  ascending : StdMap.Ascending entries

namespace StdMap

variable {V : Type}

instance [DecidableEq V] : DecidableEq (StdMap V) := fun a b =>
  decidable_of_iff (a.entries = b.entries) (by cases a; cases b; simp)

/-- The empty map. -/
def empty : StdMap V := ⟨[], List.Pairwise.nil⟩

/-- The call `m.find(k)`: the mapped value, or `none` for `m.end()`. -/
def find (m : StdMap V) (k : String) : Option V := findIn m.entries k

/-- The call `m.count(k)`: 0 or 1. -/
def count (m : StdMap V) (k : String) : Nat := if (m.find k).isSome then 1 else 0

/-- The map after the mapped value of `k` was put to `v`, the pair being created
when the key is new. -/
def set (m : StdMap V) (k : String) (v : V) : StdMap V :=
  ⟨setIn m.entries k v, ascending_setIn k v m.ascending⟩

/-- The call `m.erase(k)`, or `m.erase(it)` for the iterator found at `k`. -/
def erase (m : StdMap V) (k : String) : StdMap V :=
  ⟨eraseIn m.entries k, ascending_eraseIn k m.ascending⟩

/-- The map after `m[k]` was evaluated: a new key receives the value-initialised
mapped value `dflt`, an existing pair is kept. -/
def subscript (m : StdMap V) (k : String) (dflt : V) : StdMap V :=
  if (m.find k).isSome then m else m.set k dflt

/-- A write through the reference to the mapped value of `k`: `f` is applied to
it; nothing happens when the key is absent. -/
def update (m : StdMap V) (k : String) (f : V → V) : StdMap V :=
  match m.find k with
  | some v => m.set k (f v)
  | none => m

end StdMap

/-! ## `std::remove_if` followed by `erase` -/

/-- The range `[begin, newEnd)` left by `std::remove_if(begin, end, p)`: the
elements for which `p` is false, in their original order.  The call
`v.erase(remove_if(v.begin(), v.end(), p), v.end())` leaves `v` equal to it. -/
def remove_if {α : Type} (p : α → Bool) : List α → List α
  | [] => []
  | x :: xs => if p x then remove_if p xs else x :: remove_if p xs

/-! ## `Military_project.cpp` -/

namespace MilitaryProject

/-- The class `MilitaryRank`. -/
structure MilitaryRank where
  name : String
  rankLevel : Int
  accessLevel : AccessLevel
  deriving DecidableEq, Repr

/-- The accessor `MilitaryRank::getAccessLevel`. -/
def MilitaryRank.getAccessLevel (r : MilitaryRank) : AccessLevel := r.accessLevel

/-- The class `Weapon`. -/
structure Weapon where
  name : String
  type : String
  damageRating : Int
  range : Int
  accuracy : Int
  requiredAccess : AccessLevel
  deriving DecidableEq, Repr

/-- The default arguments of the constructor:
`Weapon("Rifle", "Assault", 50, 300, 70, AccessLevel::CONFIDENTIAL)`. -/
instance : Inhabited Weapon :=
  ⟨{ name := "Rifle", type := "Assault", damageRating := 50, range := 300, accuracy := 70,
     requiredAccess := AccessLevel.CONFIDENTIAL }⟩

/-- The accessor `Weapon::getName`. -/
def Weapon.getName (w : Weapon) : String := w.name

/-- The accessor `Weapon::getRequiredAccess`. -/
def Weapon.getRequiredAccess (w : Weapon) : AccessLevel := w.requiredAccess

/-- The class `Soldier`, with the two name fields of its base class `Person`. -/
structure Soldier where
  firstName : String
  lastName : String
  id : String
  rank : MilitaryRank
  specialization : String
  experienceYears : Int
  active : Bool
  skills : List String
  assignedWeapons : List Weapon
  deriving DecidableEq, Repr

namespace Soldier

/-- The constructor `Soldier(i, fn, ln, r, spec, exp)`: active, no skills, no weapons. -/
def new (i fn ln : String) (r : MilitaryRank) (spec : String) (exp : Int) : Soldier :=
  { firstName := fn, lastName := ln, id := i, rank := r, specialization := spec,
    experienceYears := exp, active := true, skills := [], assignedWeapons := [] }

/-- The accessor `Soldier::getAccessLevel`. -/
def getAccessLevel (s : Soldier) : AccessLevel := s.rank.getAccessLevel

/-- The member `Soldier::addSkill`. -/
def addSkill (s : Soldier) (skill : String) : Soldier :=
  { s with skills := s.skills ++ [skill] }

/-- The member `Soldier::assignWeapon`: `push_back` when the cast comparison holds,
otherwise one line on `cout`.  The second component is the text written. -/
def assignWeapon (s : Soldier) (weapon : Weapon) : Soldier × String :=
  if s.rank.getAccessLevel.toInt ≥ weapon.getRequiredAccess.toInt then
    ({ s with assignedWeapons := s.assignedWeapons ++ [weapon] }, "")
  else
    (s, "Access Denied: Weapon " ++ weapon.getName ++ "\n")

/-- The member `Soldier::removeWeapon`: erase-remove of the weapons named `weaponName`. -/
def removeWeapon (s : Soldier) (weaponName : String) : Soldier :=
  { s with assignedWeapons :=
      remove_if (fun w => decide (w.getName = weaponName)) s.assignedWeapons }

/-- The member `Soldier::operator+`: a copy of the left operand with the right
operand's skills appended. -/
def merge (s other : Soldier) : Soldier :=
  { s with skills := s.skills ++ other.skills }

end Soldier

end MilitaryProject

namespace MilitaryProject

/-- The class `Inventory`: weapon lines `name ↦ (weapon, quantity)`, supply lines
`id ↦ (description, quantity)` and the level required to look at it. -/
structure Inventory where
  weapons : StdMap (Weapon × Int)
  supplies : StdMap (String × Int)
  requiredAccessLevel : AccessLevel
  deriving DecidableEq

namespace Inventory

/-- The constructor `Inventory(al)`: no line at all. -/
def new (al : AccessLevel) : Inventory :=
  { weapons := StdMap.empty, supplies := StdMap.empty, requiredAccessLevel := al }

/-- The member `Inventory::addWeapon`:
`weapons[name].first = weapon; weapons[name].second += qty;`, the sum being an `int`. -/
def addWeapon (inv : Inventory) (weapon : Weapon) (qty : Int) : Inventory :=
  let name := weapon.getName
  let w1 := (inv.weapons.subscript name (default, 0)).update name (fun line => (weapon, line.2))
  let w2 := (w1.subscript name (default, 0)).update name
    (fun line => (line.1, wrapInt (line.2 + qty)))
  { inv with weapons := w2 }

/-- The member `Inventory::removeWeapon`: on an existing line the quantity becomes
`max(0, quantity - qty)`, and the line is erased when that is 0. -/
def removeWeapon (inv : Inventory) (name : String) (qty : Int) : Inventory :=
  if inv.weapons.count name ≠ 0 then
    let w1 := inv.weapons.update name (fun line => (line.1, max 0 (line.2 - qty)))
    match w1.find name with
    | some line => if line.2 = 0 then { inv with weapons := w1.erase name }
                   else { inv with weapons := w1 }
    | none => { inv with weapons := w1 }
  else inv

/-- The member `Inventory::addSupply`:
`supplies[id].first = desc; supplies[id].second += qty;`, the sum being an `int`. -/
def addSupply (inv : Inventory) (id desc : String) (qty : Int) : Inventory :=
  let s1 := (inv.supplies.subscript id ("", 0)).update id (fun line => (desc, line.2))
  let s2 := (s1.subscript id ("", 0)).update id
    (fun line => (line.1, wrapInt (line.2 + qty)))
  { inv with supplies := s2 }

/-- The member `Inventory::removeSupply`, the twin of `removeWeapon`. -/
def removeSupply (inv : Inventory) (id : String) (qty : Int) : Inventory :=
  if inv.supplies.count id ≠ 0 then
    let s1 := inv.supplies.update id (fun line => (line.1, max 0 (line.2 - qty)))
    match s1.find id with
    | some line => if line.2 = 0 then { inv with supplies := s1.erase id }
                   else { inv with supplies := s1 }
    | none => { inv with supplies := s1 }
  else inv

/-- The member `Inventory::getWeaponQuantity`:
`weapons.count(name) ? weapons.at(name).second : 0`. -/
def getWeaponQuantity (inv : Inventory) (name : String) : Int :=
  match inv.weapons.find name with
  | some line => line.2
  | none => 0

/-- The member `Inventory::getSupplyQuantity`. -/
def getSupplyQuantity (inv : Inventory) (id : String) : Int :=
  match inv.supplies.find id with
  | some line => line.2
  | none => 0

/-- The member `Inventory::canAccess`. -/
def canAccess (inv : Inventory) (soldier : Soldier) : Bool :=
  decide (soldier.getAccessLevel.toInt ≥ inv.requiredAccessLevel.toInt)

end Inventory

end MilitaryProject

/-! The objects built by `main` of `Military_project.cpp`. -/

namespace MilitaryProject

/-- The rank `rank1` of `main`: `MilitaryRank("Sergeant", 5, AccessLevel::SECRET)`. -/
def main.rank1 : MilitaryRank :=
  { name := "Sergeant", rankLevel := 5, accessLevel := AccessLevel.SECRET }

/-- The soldier `alice` of `main`, as constructed:
`Soldier("S001", "Alice", "Smith", rank1)` with the defaults `"Infantry"` and 0. -/
def main.alice : Soldier := Soldier.new "S001" "Alice" "Smith" main.rank1 "Infantry" 0

/-- The weapon `rifle` of `main`. -/
def main.rifle : Weapon :=
  { name := "Rifle", type := "Assault", damageRating := 60, range := 300, accuracy := 75,
    requiredAccess := AccessLevel.SECRET }

/-- The weapon `drone` of `main`. -/
def main.drone : Weapon :=
  { name := "Drone", type := "Recon", damageRating := 20, range := 1000, accuracy := 90,
    requiredAccess := AccessLevel.TOP_SECRET }

/-- The rank `rank2` of `main`: `MilitaryRank("Lieutenant", 12, AccessLevel::TOP_SECRET)`. -/
def main.rank2 : MilitaryRank :=
  { name := "Lieutenant", rankLevel := 12, accessLevel := AccessLevel.TOP_SECRET }

/-- The soldier `bob` of `main`, as constructed. -/
def main.bob : Soldier := Soldier.new "S002" "Bob" "Jones" main.rank2 "Infantry" 0

/-- The inventory `inv` of `main`, as stocked there:
`Inventory inv(AccessLevel::SECRET); inv.addWeapon(rifle, 10); inv.addSupply("MED01", "Medkit", 20);`. -/
def main.inv : Inventory :=
  ((Inventory.new AccessLevel.SECRET).addWeapon main.rifle 10).addSupply "MED01" "Medkit" 20

end MilitaryProject

/-! ## `Military_project_endofsemester.cpp` -/

namespace EndOfSemester

/-- The enumeration `MilitaryBranch`. -/
inductive MilitaryBranch where
  | ARMY
  | NAVY
  | AIR_FORCE
  | MARINES
  | COAST_GUARD
  | SPACE_FORCE
  deriving DecidableEq, Repr

/-- The class `MilitaryRank`. -/
structure MilitaryRank where
  name : String
  rankLevel : Int
  accessLevel : AccessLevel
  branch : MilitaryBranch
  deriving DecidableEq, Repr

/-- The default arguments of the constructor:
`MilitaryRank("Private", 1, AccessLevel::CONFIDENTIAL, MilitaryBranch::ARMY)`. -/
instance : Inhabited MilitaryRank :=
  ⟨{ name := "Private", rankLevel := 1, accessLevel := AccessLevel.CONFIDENTIAL,
     branch := MilitaryBranch.ARMY }⟩

/-- The accessor `MilitaryRank::getAccessLevel`. -/
def MilitaryRank.getAccessLevel (r : MilitaryRank) : AccessLevel := r.accessLevel

/-- The class `Weapon`. -/
structure Weapon where
  name : String
  type : String
  damageRating : Int
  range : Int
  accuracy : Int
  requiredAccess : AccessLevel
  deriving DecidableEq, Repr

/-- The default arguments of the constructor:
`Weapon("Rifle", "Assault", 50, 300, 70, AccessLevel::CONFIDENTIAL)`. -/
instance : Inhabited Weapon :=
  ⟨{ name := "Rifle", type := "Assault", damageRating := 50, range := 300, accuracy := 70,
     requiredAccess := AccessLevel.CONFIDENTIAL }⟩

/-- The accessor `Weapon::getName`. -/
def Weapon.getName (w : Weapon) : String := w.name

/-- The accessor `Weapon::getRequiredAccess`. -/
def Weapon.getRequiredAccess (w : Weapon) : AccessLevel := w.requiredAccess

/-- The class `Soldier`.  It derives from `MilitaryRank`; the base subobject
(`base`) is default-constructed and never read, the soldier's own rank is the
member `rank`. -/
structure Soldier where
  base : MilitaryRank
  id : String
  firstName : String
  lastName : String
  rank : MilitaryRank
  specialization : String
  experienceYears : Int
  active : Bool
  skills : List String
  assignedWeapons : List Weapon
  deriving DecidableEq, Repr

namespace Soldier

/-- The constructor `Soldier(i, fn, ln, r, spec, exp)`. -/
def new (i fn ln : String) (r : MilitaryRank) (spec : String) (exp : Int) : Soldier :=
  { base := default, id := i, firstName := fn, lastName := ln, rank := r,
    specialization := spec, experienceYears := exp, active := true, skills := [],
    assignedWeapons := [] }

/-- The member `Soldier::addSkill`. -/
def addSkill (s : Soldier) (skill : String) : Soldier :=
  { s with skills := s.skills ++ [skill] }

/-- The member `Soldier::assignWeapon`: a plain `push_back`. -/
def assignWeapon (s : Soldier) (weapon : Weapon) : Soldier :=
  { s with assignedWeapons := s.assignedWeapons ++ [weapon] }

/-- The member `Soldier::removeWeapon`: erase-remove of the weapons named `weaponName`. -/
def removeWeapon (s : Soldier) (weaponName : String) : Soldier :=
  { s with assignedWeapons :=
      remove_if (fun w => decide (w.getName = weaponName)) s.assignedWeapons }

/-- The member `Soldier::canAccess`. -/
def canAccess (s : Soldier) (requiredAccess : AccessLevel) : Bool :=
  decide (s.rank.getAccessLevel.toInt ≥ requiredAccess.toInt)

/-- The accessor `Soldier::getAccessLevel`. -/
def getAccessLevel (s : Soldier) : AccessLevel := s.rank.getAccessLevel

/-- The accessor `Soldier::getWeapons`. -/
def getWeapons (s : Soldier) : List Weapon := s.assignedWeapons

end Soldier

/-- The class `Warzone`. -/
structure Warzone where
  id : String
  name : String
  location : String
  description : String
  requiredAccessLevel : AccessLevel
  deriving DecidableEq, Repr

/-- The member `Warzone::canAccess`. -/
def Warzone.canAccess (z : Warzone) (soldier : Soldier) : Bool :=
  soldier.canAccess z.requiredAccessLevel

/-- The class `Inventory`. -/
structure Inventory where
  weapons : StdMap (Weapon × Int)
  supplies : StdMap (String × Int)
  requiredAccessLevel : AccessLevel
  deriving DecidableEq

namespace Inventory

/-- The constructor `Inventory(al)`: no line at all. -/
def new (al : AccessLevel) : Inventory :=
  { weapons := StdMap.empty, supplies := StdMap.empty, requiredAccessLevel := al }

/-- The member `Inventory::addWeapon`: an existing line gains `quantity` (the sum
is an `int`), a new line is created as `make_pair(weapon, quantity)`. -/
def addWeapon (inv : Inventory) (weapon : Weapon) (quantity : Int) : Inventory :=
  let name := weapon.getName
  if inv.weapons.count name ≠ 0 then
    { inv with weapons :=
        inv.weapons.update name (fun line => (line.1, wrapInt (line.2 + quantity))) }
  else
    { inv with weapons := inv.weapons.set name (weapon, quantity) }

/-- The member `Inventory::removeWeapon`: on an existing line `quantity` is
subtracted, and the line is erased when the result is `<= 0`. -/
def removeWeapon (inv : Inventory) (weaponName : String) (quantity : Int) : Inventory :=
  match inv.weapons.find weaponName with
  | some line =>
    let w1 := inv.weapons.set weaponName (line.1, line.2 - quantity)
    if line.2 - quantity ≤ 0 then { inv with weapons := w1.erase weaponName }
    else { inv with weapons := w1 }
  | none => inv

/-- The member `Inventory::addSupply`: an existing line gains `quantity` (the sum
is an `int`), a new line is created as `make_pair(description, quantity)`. -/
def addSupply (inv : Inventory) (supplyId description : String) (quantity : Int) : Inventory :=
  if inv.supplies.count supplyId ≠ 0 then
    { inv with supplies :=
        inv.supplies.update supplyId (fun line => (line.1, wrapInt (line.2 + quantity))) }
  else
    { inv with supplies := inv.supplies.set supplyId (description, quantity) }

/-- The member `Inventory::removeSupply`, the twin of `removeWeapon`. -/
def removeSupply (inv : Inventory) (supplyId : String) (quantity : Int) : Inventory :=
  match inv.supplies.find supplyId with
  | some line =>
    let s1 := inv.supplies.set supplyId (line.1, line.2 - quantity)
    if line.2 - quantity ≤ 0 then { inv with supplies := s1.erase supplyId }
    else { inv with supplies := s1 }
  | none => inv

/-- The member `Inventory::getWeaponQuantity`. -/
def getWeaponQuantity (inv : Inventory) (weaponName : String) : Int :=
  match inv.weapons.find weaponName with
  | some line => line.2
  | none => 0

/-- The member `Inventory::getSupplyQuantity`. -/
def getSupplyQuantity (inv : Inventory) (supplyId : String) : Int :=
  match inv.supplies.find supplyId with
  | some line => line.2
  | none => 0

/-- The member `Inventory::canAccess`: the soldier against the level of the
inventory as a whole. -/
def canAccess (inv : Inventory) (soldier : Soldier) : Bool :=
  decide (soldier.getAccessLevel.toInt ≥ inv.requiredAccessLevel.toInt)

/-- One row of the weapon loop of `displayInfo`: `"- " << name << " x" << quantity << "\n"`. -/
def weaponRow (line : String × (Weapon × Int)) : String :=
  "- " ++ line.1 ++ " x" ++ toString line.2.2 ++ "\n"

/-- One row of the supply loop of `displayInfo`. -/
def supplyRow (line : String × (String × Int)) : String :=
  "- " ++ line.1 ++ ": " ++ line.2.1 ++ " x" ++ toString line.2.2 ++ "\n"

/-- The rows written by the loop `for (const auto& [name, pair] : weapons)`. -/
def weaponRows (inv : Inventory) : List String := inv.weapons.entries.map weaponRow

/-- The rows written by the loop `for (const auto& [id, pair] : supplies)`. -/
def supplyRows (inv : Inventory) : List String := inv.supplies.entries.map supplyRow

/-- The member `Inventory::displayInfo`: the text written to `cout`. -/
def displayInfo (inv : Inventory) : String :=
  "Inventory Access Level: " ++ toString inv.requiredAccessLevel.toInt ++ "\n"
    ++ "Weapons:\n" ++ String.join inv.weaponRows
    ++ "Supplies:\n" ++ String.join inv.supplyRows

/-- The member `Inventory::toString`. -/
def toString (inv : Inventory) : String :=
  "Inventory:\nWeapons:\n" ++ String.join inv.weaponRows
    ++ "Supplies:\n" ++ String.join inv.supplyRows

end Inventory

/-- The class `MilitaryManagementSystem`.  The map `soldiers` owns the soldiers
by value; `currentUser`, a pointer into that map in the source, is the key of
the soldier it points to. -/
structure MilitaryManagementSystem where
  soldiers : StdMap Soldier
  weaponTypes : StdMap Weapon
  warzones : StdMap Warzone
  currentUser : Option String
  inventory : Inventory
  deriving DecidableEq

namespace MilitaryManagementSystem

/-- The member `addDefaultWeaponsAndWarzones`. -/
def addDefaultWeaponsAndWarzones (sys : MilitaryManagementSystem) : MilitaryManagementSystem :=
  let w1 := sys.weaponTypes.set "Rifle"
    { name := "Rifle", type := "Assault", damageRating := 50, range := 300, accuracy := 70,
      requiredAccess := AccessLevel.CONFIDENTIAL }
  let w2 := w1.set "Pistol"
    { name := "Pistol", type := "Sidearm", damageRating := 30, range := 100, accuracy := 80,
      requiredAccess := AccessLevel.SECRET }
  let w3 := w2.set "Sniper"
    { name := "Sniper", type := "Precision", damageRating := 100, range := 600, accuracy := 90,
      requiredAccess := AccessLevel.TOP_SECRET }
  let z1 := sys.warzones.set "Z1"
    { id := "Z1", name := "Desert Storm", location := "Middle East",
      description := "Tense desert combat zone.", requiredAccessLevel := AccessLevel.TOP_SECRET }
  let z2 := z1.set "Z2"
    { id := "Z2", name := "Arctic Warfare", location := "Northern Region",
      description := "Cold and hazardous environment.",
      requiredAccessLevel := AccessLevel.SECRET }
  { sys with weaponTypes := w3, warzones := z2 }

/-- The constructor `MilitaryManagementSystem()`: nobody logged in, a default
inventory, the default weapons and warzones. -/
def new : MilitaryManagementSystem :=
  addDefaultWeaponsAndWarzones
    { soldiers := StdMap.empty, weaponTypes := StdMap.empty, warzones := StdMap.empty,
      currentUser := none, inventory := Inventory.new AccessLevel.CONFIDENTIAL }

/-- The member `createSoldier`, for the rank returned by `createRank` and the
five tokens read from `cin`: `soldiers[soldierId] = move(soldier)`. -/
def createSoldier (sys : MilitaryManagementSystem) (rank : MilitaryRank)
    (soldierId firstName lastName specialization : String) (experience : Int) :
    MilitaryManagementSystem :=
  let soldier := Soldier.new soldierId firstName lastName rank specialization experience
  { sys with soldiers := sys.soldiers.set soldierId soldier }

/-- The member `assignWeaponToSoldier`, the two tokens read from `cin` being
`soldierId` and `weaponName`.  The second component is the text written. -/
def assignWeaponToSoldier (sys : MilitaryManagementSystem) (soldierId weaponName : String) :
    MilitaryManagementSystem × String :=
  let prompts := "Enter Soldier ID: " ++ "Enter Weapon Name: "
  match sys.soldiers.find soldierId, sys.weaponTypes.find weaponName with
  | some soldier, some weapon =>
    if soldier.canAccess weapon.getRequiredAccess then
      ({ sys with soldiers := sys.soldiers.set soldierId (soldier.assignWeapon weapon) },
        prompts ++ "Weapon assigned successfully.\n")
    else
      (sys, prompts ++ "Insufficient access level to assign this weapon.\n")
  | _, _ => (sys, prompts ++ "Soldier or weapon not found.\n")

/-- The branch `view_inventory` of `run`, for the soldier `currentUser` points
to (`none` for a null pointer): the text written. -/
def viewInventory (currentUser : Option Soldier) (inventory : Inventory) : String :=
  match currentUser with
  | some user =>
    if inventory.canAccess user then inventory.displayInfo
    else "Access denied to inventory.\n"
  | none => "No soldier logged in.\n"

end MilitaryManagementSystem

end EndOfSemester

/-! ## Sequences of ledger calls -/

/-- Every stored line of a quantity-tracked map has a strictly positive quantity. -/
def StdMap.PositiveQty {A : Type} (m : StdMap (A × Int)) : Prop :=
  ∀ e ∈ m.entries, 0 < e.2.2

namespace MilitaryProject

/-- One call of a mutating member of `Inventory`, with its arguments. -/
inductive LedgerOp where
  | addWeapon (weapon : Weapon) (qty : Int)
  | removeWeapon (name : String) (qty : Int)
  | addSupply (id desc : String) (qty : Int)
  | removeSupply (id : String) (qty : Int)

/-- The call stocks a strictly positive quantity, or is a removal. -/
def LedgerOp.addsPositive : LedgerOp → Bool
  | LedgerOp.addWeapon _ qty => decide (0 < qty)
  | LedgerOp.addSupply _ _ qty => decide (0 < qty)
  | LedgerOp.removeWeapon _ _ => true
  | LedgerOp.removeSupply _ _ => true

/-- The inventory after one call. -/
def Inventory.apply (inv : Inventory) : LedgerOp → Inventory
  | LedgerOp.addWeapon weapon qty => inv.addWeapon weapon qty
  | LedgerOp.removeWeapon name qty => inv.removeWeapon name qty
  | LedgerOp.addSupply id desc qty => inv.addSupply id desc qty
  | LedgerOp.removeSupply id qty => inv.removeSupply id qty

/-- The inventory after a sequence of calls, made from left to right. -/
def Inventory.run (inv : Inventory) (ops : List LedgerOp) : Inventory :=
  ops.foldl Inventory.apply inv

/-- The number that the call computes on the inventory lies within the range of
`int`: for an addition the quantity reported before (0 without a line) plus `qty`,
for a removal from an existing line its quantity minus `qty`. -/
def Inventory.inRange (inv : Inventory) : LedgerOp → Bool
  | LedgerOp.addWeapon weapon qty => inInt (inv.getWeaponQuantity weapon.getName + qty)
  | LedgerOp.removeWeapon name qty =>
    match inv.weapons.find name with
    | some line => inInt (line.2 - qty)
    | none => true
  | LedgerOp.addSupply id _ qty => inInt (inv.getSupplyQuantity id + qty)
  | LedgerOp.removeSupply id qty =>
    match inv.supplies.find id with
    | some line => inInt (line.2 - qty)
    | none => true

/-- No call of the sequence, made from left to right, leaves the range of `int`. -/
def Inventory.staysInInt (inv : Inventory) : List LedgerOp → Bool
  | [] => true
  | op :: rest => inv.inRange op && (inv.apply op).staysInInt rest

end MilitaryProject

namespace EndOfSemester

/-- One call of a mutating member of `Inventory`, with its arguments. -/
inductive LedgerOp where
  | addWeapon (weapon : Weapon) (qty : Int)
  | removeWeapon (name : String) (qty : Int)
  | addSupply (id desc : String) (qty : Int)
  | removeSupply (id : String) (qty : Int)

/-- The call stocks a strictly positive quantity, or is a removal. -/
def LedgerOp.addsPositive : LedgerOp → Bool
  | LedgerOp.addWeapon _ qty => decide (0 < qty)
  | LedgerOp.addSupply _ _ qty => decide (0 < qty)
  | LedgerOp.removeWeapon _ _ => true
  | LedgerOp.removeSupply _ _ => true

/-- The inventory after one call. -/
def Inventory.apply (inv : Inventory) : LedgerOp → Inventory
  | LedgerOp.addWeapon weapon qty => inv.addWeapon weapon qty
  | LedgerOp.removeWeapon name qty => inv.removeWeapon name qty
  | LedgerOp.addSupply id desc qty => inv.addSupply id desc qty
  | LedgerOp.removeSupply id qty => inv.removeSupply id qty

/-- The inventory after a sequence of calls, made from left to right. -/
def Inventory.run (inv : Inventory) (ops : List LedgerOp) : Inventory :=
  ops.foldl Inventory.apply inv

/-- The number that the call computes on the inventory lies within the range of
`int`: for an addition the quantity reported before (0 without a line) plus `qty`,
for a removal from an existing line its quantity minus `qty`. -/
def Inventory.inRange (inv : Inventory) : LedgerOp → Bool
  | LedgerOp.addWeapon weapon qty => inInt (inv.getWeaponQuantity weapon.getName + qty)
  | LedgerOp.removeWeapon name qty =>
    match inv.weapons.find name with
    | some line => inInt (line.2 - qty)
    | none => true
  | LedgerOp.addSupply id _ qty => inInt (inv.getSupplyQuantity id + qty)
  | LedgerOp.removeSupply id qty =>
    match inv.supplies.find id with
    | some line => inInt (line.2 - qty)
    | none => true

/-- No call of the sequence, made from left to right, leaves the range of `int`. -/
def Inventory.staysInInt (inv : Inventory) : List LedgerOp → Bool
  | [] => true
  | op :: rest => inv.inRange op && (inv.apply op).staysInInt rest

end EndOfSemester

/-! ## Combining weapons, building soldiers, reading quantities -/

namespace EndOfSemester

/-- The friend `operator+(const Weapon&, const Weapon&)`: name and numbers come
from both operands, the required clearance from the left one only.  The division
of two `int` truncates toward zero. -/
def Weapon.add (w1 w2 : Weapon) : Weapon :=
  { name := w1.name ++ " & " ++ w2.name, type := "Combined",
    damageRating := w1.damageRating + w2.damageRating, range := w1.range + w2.range,
    accuracy := Int.tdiv (w1.accuracy + w2.accuracy) 2, requiredAccess := w1.requiredAccess }

instance : Add Weapon := ⟨Weapon.add⟩

/-- The name-to-quantity mapping held by the weapon lines, in key order. -/
def Inventory.weaponQuantities (inv : Inventory) : List (String × Int) :=
  inv.weapons.entries.map (fun e => (e.1, e.2.2))

end EndOfSemester

namespace MilitaryProject

/-- The name-to-quantity mapping held by the weapon lines, in key order. -/
def Inventory.weaponQuantities (inv : Inventory) : List (String × Int) :=
  inv.weapons.entries.map (fun e => (e.1, e.2.2))

/-- A use of the public interface of `Soldier` that yields a soldier: the
constructor, then any calls of `addSkill`, `assignWeapon`, `removeWeapon` and
`operator+`, the right operand of which is obtained in the same way. -/
inductive SoldierCalls where
  | construct (i fn ln : String) (r : MilitaryRank) (spec : String) (exp : Int)
  | addSkill (s : SoldierCalls) (skill : String)
  | assignWeapon (s : SoldierCalls) (weapon : Weapon)
  | removeWeapon (s : SoldierCalls) (weaponName : String)
  | plus (s other : SoldierCalls)

/-- The soldier that the calls yield. -/
def SoldierCalls.result : SoldierCalls → Soldier
  | SoldierCalls.construct i fn ln r spec exp => Soldier.new i fn ln r spec exp
  | SoldierCalls.addSkill s skill => s.result.addSkill skill
  | SoldierCalls.assignWeapon s weapon => (s.result.assignWeapon weapon).1
  | SoldierCalls.removeWeapon s weaponName => s.result.removeWeapon weaponName
  | SoldierCalls.plus s other => s.result.merge other.result

end MilitaryProject

/-! ## Concrete states on which the model is evaluated -/

namespace EndOfSemester

/-- A rank with clearance SECRET. -/
def Example.sergeant : MilitaryRank :=
  { name := "Sergeant", rankLevel := 5, accessLevel := AccessLevel.SECRET,
    branch := MilitaryBranch.ARMY }

/-- A rank with clearance CONFIDENTIAL. -/
def Example.recruit : MilitaryRank :=
  { name := "Private", rankLevel := 1, accessLevel := AccessLevel.CONFIDENTIAL,
    branch := MilitaryBranch.ARMY }

/-- The soldier S001, clearance SECRET, no weapon yet. -/
def Example.alice : Soldier := Soldier.new "S001" "Alice" "Smith" Example.sergeant "Infantry" 0

/-- The soldier S002, clearance CONFIDENTIAL, no weapon yet. -/
def Example.bob : Soldier := Soldier.new "S002" "Bob" "Jones" Example.recruit "Infantry" 0

/-- The default weapon "Sniper", which requires TOP_SECRET. -/
def Example.sniper : Weapon :=
  { name := "Sniper", type := "Precision", damageRating := 100, range := 600, accuracy := 90,
    requiredAccess := AccessLevel.TOP_SECRET }

/-- The default weapon "Rifle", which requires CONFIDENTIAL. -/
def Example.rifle : Weapon :=
  { name := "Rifle", type := "Assault", damageRating := 50, range := 300, accuracy := 70,
    requiredAccess := AccessLevel.CONFIDENTIAL }

/-- An inventory open to CONFIDENTIAL that stocks 3 sniper rifles, 10 rifles and
20 medkits. -/
def Example.inventory : Inventory :=
  (((Inventory.new AccessLevel.CONFIDENTIAL).addWeapon Example.sniper 3).addWeapon
    Example.rifle 10).addSupply "MED01" "Medkit" 20

/-- The freshly constructed system after `create_soldier` registered S001. -/
def Example.system : MilitaryManagementSystem :=
  MilitaryManagementSystem.new.createSoldier Example.sergeant "S001" "Alice" "Smith" "Infantry" 0

/-- The soldier S003, clearance SCI, no weapon yet. -/
def Example.carol : Soldier :=
  Soldier.new "S003" "Carol" "Reed"
    { name := "General", rankLevel := 20, accessLevel := AccessLevel.SCI,
      branch := MilitaryBranch.ARMY } "Command" 25

/-- The system after S001 was granted the rifle through `assign_weapon`. -/
def Example.systemWithRifle : MilitaryManagementSystem :=
  (Example.system.assignWeaponToSoldier "S001" "Rifle").1

end EndOfSemester

namespace MilitaryProject

/-- A soldier with clearance SCI, no weapon yet. -/
def Example.carol : Soldier :=
  Soldier.new "S003" "Carol" "Reed"
    { name := "General", rankLevel := 20, accessLevel := AccessLevel.SCI } "Command" 25

end MilitaryProject

/-! ## Facts about `StdMap` -/

namespace StdMap

variable {V : Type}

theorem findIn_setIn_same (l : List (String × V)) (k : String) (v : V) :
    findIn (setIn l k v) k = some v := by
  induction l with
  | nil => simp [setIn, findIn]
  | cons hd tl ih =>
    obtain ⟨k', v'⟩ := hd
    unfold setIn
    split_ifs with h1 h2
    · simp [findIn]
    · simp [findIn]
    · simp [findIn, Ne.symm h2, ih]

theorem findIn_setIn_other (l : List (String × V)) (k : String) (v : V) {k2 : String}
    (h : k2 ≠ k) : findIn (setIn l k v) k2 = findIn l k2 := by
  induction l with
  | nil => simp [setIn, findIn, Ne.symm h]
  | cons hd tl ih =>
    obtain ⟨k', v'⟩ := hd
    unfold setIn
    split_ifs with h1 h2
    · simp [findIn, Ne.symm h]
    · subst h2; simp [findIn, Ne.symm h]
    · simp [findIn, ih]

theorem findIn_eq_none (l : List (String × V)) (k : String) (h : ∀ p ∈ l, p.1 ≠ k) :
    findIn l k = none := by
  induction l with
  | nil => rfl
  | cons hd tl ih =>
    obtain ⟨k', v'⟩ := hd
    have h1 : k' ≠ k := h (k', v') (List.mem_cons_self _ _)
    simp [findIn, h1, ih (fun p hp => h p (List.mem_cons_of_mem _ hp))]

theorem findIn_tail_none {k : String} {v : V} {tl : List (String × V)}
    (hl : Ascending ((k, v) :: tl)) : findIn tl k = none := by
  apply findIn_eq_none
  intro p hp hpk
  have hlt := (List.pairwise_cons.mp hl).1 p hp
  rw [hpk] at hlt
  exact keyLess_irrefl k hlt

theorem findIn_eraseIn_same {l : List (String × V)} (k : String) (hl : Ascending l) :
    findIn (eraseIn l k) k = none := by
  induction l with
  | nil => rfl
  | cons hd tl ih =>
    obtain ⟨k', v'⟩ := hd
    unfold eraseIn
    split_ifs with h1
    · subst h1; exact findIn_tail_none hl
    · simp [findIn, h1, ih (List.pairwise_cons.mp hl).2]

theorem findIn_eraseIn_other (l : List (String × V)) (k : String) {k2 : String}
    (h : k2 ≠ k) : findIn (eraseIn l k) k2 = findIn l k2 := by
  induction l with
  | nil => rfl
  | cons hd tl ih =>
    obtain ⟨k', v'⟩ := hd
    unfold eraseIn
    split_ifs with h1
    · subst h1; simp [findIn, Ne.symm h]
    · simp [findIn, ih]

theorem mem_of_findIn {l : List (String × V)} {k : String} {v : V}
    (h : findIn l k = some v) : (k, v) ∈ l := by
  induction l with
  | nil => simp [findIn] at h
  | cons hd tl ih =>
    obtain ⟨k', v'⟩ := hd
    unfold findIn at h
    split_ifs at h with h1
    · subst h1
      simp only [Option.some.injEq] at h
      subst h
      exact List.mem_cons_self _ _
    · exact List.mem_cons_of_mem _ (ih h)

theorem findIn_of_mem {l : List (String × V)} {k : String} {v : V} (hl : Ascending l)
    (h : (k, v) ∈ l) : findIn l k = some v := by
  induction l with
  | nil => simp at h
  | cons hd tl ih =>
    obtain ⟨k', v'⟩ := hd
    rcases List.mem_cons.mp h with h | h
    · simp only [Prod.mk.injEq] at h
      obtain ⟨h1, h2⟩ := h
      subst h1; subst h2
      simp [findIn]
    · have hlt := (List.pairwise_cons.mp hl).1 (k, v) h
      have hne : k' ≠ k := fun e => keyLess_irrefl k (e ▸ hlt)
      simp [findIn, hne, ih (List.pairwise_cons.mp hl).2 h]

theorem find_set_same (m : StdMap V) (k : String) (v : V) : (m.set k v).find k = some v :=
  findIn_setIn_same m.entries k v

theorem find_set_other (m : StdMap V) (k : String) (v : V) {k2 : String} (h : k2 ≠ k) :
    (m.set k v).find k2 = m.find k2 :=
  findIn_setIn_other m.entries k v h

theorem find_erase_same (m : StdMap V) (k : String) : (m.erase k).find k = none :=
  findIn_eraseIn_same k m.ascending

theorem find_erase_other (m : StdMap V) (k : String) {k2 : String} (h : k2 ≠ k) :
    (m.erase k).find k2 = m.find k2 :=
  findIn_eraseIn_other m.entries k h

theorem find_subscript_same (m : StdMap V) (k : String) (d : V) :
    (m.subscript k d).find k = some ((m.find k).getD d) := by
  unfold subscript
  cases h : m.find k with
  | none => simp [find_set_same]
  | some v => simp [h]

theorem find_subscript_other (m : StdMap V) (k : String) (d : V) {k2 : String} (h : k2 ≠ k) :
    (m.subscript k d).find k2 = m.find k2 := by
  unfold subscript
  split_ifs
  · rfl
  · exact find_set_other m k d h

theorem find_update_same (m : StdMap V) (k : String) (f : V → V) :
    (m.update k f).find k = (m.find k).map f := by
  unfold update
  cases h : m.find k with
  | none => simp [h]
  | some v => simp [find_set_same]

theorem find_update_other (m : StdMap V) (k : String) (f : V → V) {k2 : String} (h : k2 ≠ k) :
    (m.update k f).find k2 = m.find k2 := by
  unfold update
  cases h1 : m.find k with
  | none => rfl
  | some v => exact find_set_other m k (f v) h

theorem ext_entries {m1 m2 : StdMap V} (h : m1.entries = m2.entries) : m1 = m2 := by
  cases m1; cases m2; simp at h; simp [h]

end StdMap

/-! ## The comparison rule -/

theorem toInt_ge_iff_compare (g r : AccessLevel) :
    g.toInt ≥ r.toInt ↔ ClearanceScale.compare g r ≠ Ordering.lt := by
  cases g <;> cases r <;> simp [AccessLevel.toInt, ClearanceScale.compare]

theorem toInt_ge_iff_meetsOrExceeds (g r : AccessLevel) :
    g.toInt ≥ r.toInt ↔ ClearanceScale.meetsOrExceeds g r = true := by
  cases g <;> cases r <;> decide

theorem compare_lt_iff_toInt_lt (g r : AccessLevel) :
    ClearanceScale.compare g r = Ordering.lt ↔ g.toInt < r.toInt := by
  cases g <;> cases r <;> decide

theorem canAccess_true_iff (s : EndOfSemester.Soldier) (r : AccessLevel) :
    s.canAccess r = true ↔ ClearanceScale.compare s.rank.accessLevel r ≠ Ordering.lt := by
  have h1 : s.canAccess r = true ↔ s.rank.accessLevel.toInt ≥ r.toInt := by
    simp [EndOfSemester.Soldier.canAccess, EndOfSemester.MilitaryRank.getAccessLevel]
  exact h1.trans (toInt_ge_iff_compare _ _)

/-- Claim C1.  For every soldier of `Military_project_endofsemester.cpp`, whatever
clearance `g` its rank carries, and every required clearance `r`:
`Soldier::canAccess` answers true exactly when `compare(g, r)` is not LESS in the
order CONFIDENTIAL < SECRET < TOP_SECRET < SCI, and so it is the rule
`meetsOrExceeds(g, r)` of the specification. -/
theorem canAccess_iff_compare_ne_less (s : EndOfSemester.Soldier) (r : AccessLevel) :
    (s.canAccess r = true ↔ ClearanceScale.compare s.rank.accessLevel r ≠ Ordering.lt) ∧
      s.canAccess r = ClearanceScale.meetsOrExceeds s.rank.accessLevel r := by
  have h1 : s.canAccess r = true ↔ s.rank.accessLevel.toInt ≥ r.toInt := by
    simp [EndOfSemester.Soldier.canAccess, EndOfSemester.MilitaryRank.getAccessLevel]
  refine ⟨h1.trans (toInt_ge_iff_compare _ _), ?_⟩
  rw [Bool.eq_iff_iff, h1]
  exact toInt_ge_iff_meetsOrExceeds _ _

/-! ## Granting a weapon -/

/-- Claim C2.  A denied grant changes nothing.  When the weapon's required
clearance is higher than the soldier's (`compare` is LESS), `Soldier::assignWeapon`
of `Military_project.cpp` returns the soldier with every field as before, and
`assignWeaponToSoldier` of `Military_project_endofsemester.cpp`, for a registered
soldier and a known weapon, returns the whole system as before, so the soldier
stored under the id is the same record. -/
theorem denied_grant_changes_nothing (s : MilitaryProject.Soldier) (w : MilitaryProject.Weapon)
    (sys : EndOfSemester.MilitaryManagementSystem) (soldierId weaponName : String)
    (s2 : EndOfSemester.Soldier) (w2 : EndOfSemester.Weapon) :
    (ClearanceScale.compare s.getAccessLevel w.getRequiredAccess = Ordering.lt →
        (s.assignWeapon w).1 = s) ∧
      (sys.soldiers.find soldierId = some s2 → sys.weaponTypes.find weaponName = some w2 →
        ClearanceScale.compare s2.getAccessLevel w2.getRequiredAccess = Ordering.lt →
        (sys.assignWeaponToSoldier soldierId weaponName).1 = sys ∧
          (sys.assignWeaponToSoldier soldierId weaponName).1.soldiers.find soldierId
            = some s2) := by
  constructor
  · intro h
    have h1 : ¬ s.rank.getAccessLevel.toInt ≥ w.getRequiredAccess.toInt := by
      rw [toInt_ge_iff_compare]
      simpa [MilitaryProject.Soldier.getAccessLevel] using h
    simp [MilitaryProject.Soldier.assignWeapon, h1]
  · intro hs hw h
    have h1 : s2.canAccess w2.getRequiredAccess = false := by
      rw [← Bool.not_eq_true, canAccess_true_iff]
      exact fun hne => hne h
    have h2 : (sys.assignWeaponToSoldier soldierId weaponName).1 = sys := by
      simp [EndOfSemester.MilitaryManagementSystem.assignWeaponToSoldier, hs, hw, h1]
    exact ⟨h2, by rw [h2]; exact hs⟩

/-- Witness of `denied_grant_changes_nothing`: Alice (SECRET) is refused the drone
(TOP_SECRET) in `Military_project.cpp`, and S001 (SECRET) is refused the sniper
rifle (TOP_SECRET) in `Military_project_endofsemester.cpp`. -/
theorem denied_grant_changes_nothing_witness :
    (ClearanceScale.compare MilitaryProject.main.alice.getAccessLevel
        MilitaryProject.main.drone.getRequiredAccess = Ordering.lt ∧
      (MilitaryProject.main.alice.assignWeapon MilitaryProject.main.drone).1
        = MilitaryProject.main.alice) ∧
    (EndOfSemester.Example.system.soldiers.find "S001" = some EndOfSemester.Example.alice ∧
      EndOfSemester.Example.system.weaponTypes.find "Sniper"
        = some EndOfSemester.Example.sniper ∧
      (EndOfSemester.Example.system.assignWeaponToSoldier "S001" "Sniper").1
        = EndOfSemester.Example.system) :=
  ⟨⟨by decide,
    (denied_grant_changes_nothing MilitaryProject.main.alice MilitaryProject.main.drone
      EndOfSemester.Example.system "S001" "Sniper" EndOfSemester.Example.alice
      EndOfSemester.Example.sniper).1 (by decide)⟩,
   ⟨by decide, by decide,
    ((denied_grant_changes_nothing MilitaryProject.main.alice MilitaryProject.main.drone
      EndOfSemester.Example.system "S001" "Sniper" EndOfSemester.Example.alice
      EndOfSemester.Example.sniper).2 (by decide) (by decide) (by decide)).1⟩⟩

/-- Claim C3.  A permitted grant is recorded.  In `Military_project.cpp`, when the
soldier's clearance meets or exceeds the weapon's required clearance,
`Soldier::assignWeapon` leaves the soldier as before except that the weapon is
appended at the end of the assigned-weapon sequence, which therefore contains it.
In the scenario of `main`, S001 (SECRET) is granted the rifle (SECRET) and holds
exactly `[rifle]`; the following grant of the drone (TOP_SECRET) is denied and the
sequence is still `[rifle]`. -/
theorem allowed_grant_appends (s : MilitaryProject.Soldier) (w : MilitaryProject.Weapon) :
    (ClearanceScale.meetsOrExceeds s.getAccessLevel w.getRequiredAccess = true →
        (s.assignWeapon w).1 = { s with assignedWeapons := s.assignedWeapons ++ [w] } ∧
          (s.assignWeapon w).1.assignedWeapons = s.assignedWeapons ++ [w] ∧
          w ∈ (s.assignWeapon w).1.assignedWeapons) ∧
      (MilitaryProject.main.alice.assignWeapon MilitaryProject.main.rifle).1.assignedWeapons
        = [MilitaryProject.main.rifle] ∧
      ((MilitaryProject.main.alice.assignWeapon MilitaryProject.main.rifle).1.assignWeapon
          MilitaryProject.main.drone).1.assignedWeapons = [MilitaryProject.main.rifle] ∧
      ((MilitaryProject.main.alice.assignWeapon MilitaryProject.main.rifle).1.assignWeapon
          MilitaryProject.main.drone).2 = "Access Denied: Weapon Drone\n" := by
  refine ⟨?_, by decide, by decide, by decide⟩
  intro h
  have h1 : s.rank.getAccessLevel.toInt ≥ w.getRequiredAccess.toInt :=
    (toInt_ge_iff_meetsOrExceeds _ _).mpr h
  simp [MilitaryProject.Soldier.assignWeapon, h1]

/-- Witness of `allowed_grant_appends`: Alice (SECRET) and the rifle (SECRET). -/
theorem allowed_grant_appends_witness :
    ClearanceScale.meetsOrExceeds MilitaryProject.main.alice.getAccessLevel
        MilitaryProject.main.rifle.getRequiredAccess = true ∧
      (MilitaryProject.main.alice.assignWeapon MilitaryProject.main.rifle).1.assignedWeapons
        = MilitaryProject.main.alice.assignedWeapons ++ [MilitaryProject.main.rifle] :=
  ⟨by decide,
    ((allowed_grant_appends MilitaryProject.main.alice MilitaryProject.main.rifle).1
      (by decide)).2.1⟩

/-- Claim C4, as the code has it.  `Soldier::assignWeapon` of
`Military_project_endofsemester.cpp` appends the weapon whatever the two
clearances are.  The check is made by its caller `assignWeaponToSoldier`: for a
registered soldier and a known weapon, the sequence stored for the soldier
afterwards is the old one with the weapon appended when the soldier's clearance
meets or exceeds the requirement, and the old one unchanged when it is lower. -/
theorem assignWeapon_gated_by_caller (s : EndOfSemester.Soldier) (w : EndOfSemester.Weapon)
    (sys : EndOfSemester.MilitaryManagementSystem) (soldierId weaponName : String) :
    (s.assignWeapon w).assignedWeapons = s.assignedWeapons ++ [w] ∧
      (sys.soldiers.find soldierId = some s → sys.weaponTypes.find weaponName = some w →
        ((sys.assignWeaponToSoldier soldierId weaponName).1.soldiers.find soldierId).map
            EndOfSemester.Soldier.getWeapons
          = some (if ClearanceScale.compare s.getAccessLevel w.getRequiredAccess = Ordering.lt
              then s.assignedWeapons else s.assignedWeapons ++ [w])) := by
  refine ⟨rfl, ?_⟩
  intro hs hw
  by_cases h : ClearanceScale.compare s.getAccessLevel w.getRequiredAccess = Ordering.lt
  · have h1 : s.canAccess w.getRequiredAccess = false := by
      rw [← Bool.not_eq_true, canAccess_true_iff]
      exact fun hne => hne h
    simp [EndOfSemester.MilitaryManagementSystem.assignWeaponToSoldier, hs, hw, h1, h,
      EndOfSemester.Soldier.getWeapons]
  · have h1 : s.canAccess w.getRequiredAccess = true := (canAccess_true_iff _ _).mpr h
    simp [EndOfSemester.MilitaryManagementSystem.assignWeaponToSoldier, hs, hw, h1, h,
      EndOfSemester.Soldier.getWeapons, StdMap.find_set_same,
      EndOfSemester.Soldier.assignWeapon]

/-- Witness of `assignWeapon_gated_by_caller`: S001 (SECRET) asks for the rifle
(CONFIDENTIAL) and receives it. -/
theorem assignWeapon_gated_by_caller_witness :
    EndOfSemester.Example.system.soldiers.find "S001" = some EndOfSemester.Example.alice ∧
      EndOfSemester.Example.system.weaponTypes.find "Rifle"
        = some EndOfSemester.Example.rifle ∧
      ((EndOfSemester.Example.system.assignWeaponToSoldier "S001" "Rifle").1.soldiers.find
          "S001").map EndOfSemester.Soldier.getWeapons
        = some (if ClearanceScale.compare EndOfSemester.Example.alice.getAccessLevel
              EndOfSemester.Example.rifle.getRequiredAccess = Ordering.lt
            then EndOfSemester.Example.alice.assignedWeapons
            else EndOfSemester.Example.alice.assignedWeapons ++ [EndOfSemester.Example.rifle]) :=
  ⟨by decide, by decide,
    (assignWeapon_gated_by_caller EndOfSemester.Example.alice EndOfSemester.Example.rifle
      EndOfSemester.Example.system "S001" "Rifle").2 (by decide) (by decide)⟩

/-- Counterexample to claim C4 as stated: the soldier S002 has clearance
CONFIDENTIAL, lower than the TOP_SECRET the sniper rifle requires, and
`Soldier::assignWeapon` of `Military_project_endofsemester.cpp` changes the
assigned-weapon sequence from empty to `[sniper]`. -/
theorem assignWeapon_unchecked_counterexample :
    ClearanceScale.compare EndOfSemester.Example.bob.getAccessLevel
        EndOfSemester.Example.sniper.getRequiredAccess = Ordering.lt ∧
      EndOfSemester.Example.bob.assignedWeapons = [] ∧
      (EndOfSemester.Example.bob.assignWeapon EndOfSemester.Example.sniper).assignedWeapons
        = [EndOfSemester.Example.sniper] ∧
      (EndOfSemester.Example.bob.assignWeapon EndOfSemester.Example.sniper).assignedWeapons
        ≠ EndOfSemester.Example.bob.assignedWeapons := by
  decide

/-! ## Revoking a weapon -/

theorem remove_if_eq_filter {α : Type} (p : α → Bool) (l : List α) :
    remove_if p l = l.filter (fun x => !p x) := by
  induction l with
  | nil => rfl
  | cons x xs ih =>
    unfold remove_if
    cases h : p x <;> simp [h, ih]

theorem not_of_mem_remove_if {α : Type} (p : α → Bool) (l : List α) {x : α}
    (h : x ∈ remove_if p l) : p x = false := by
  rw [remove_if_eq_filter, List.mem_filter] at h
  simpa using h.2

theorem count_remove_if {α : Type} [DecidableEq α] (p : α → Bool) (l : List α) {x : α}
    (h : p x = false) : (remove_if p l).count x = l.count x := by
  induction l with
  | nil => rfl
  | cons y ys ih =>
    unfold remove_if
    by_cases hy : p y = true
    · have hne : y ≠ x := fun e => by rw [e, h] at hy; exact Bool.noConfusion hy
      simp [hy, ih, List.count_cons, hne]
    · simp [hy, ih, List.count_cons]

theorem remove_if_sublist {α : Type} (p : α → Bool) (l : List α) :
    List.Sublist (remove_if p l) l := by
  rw [remove_if_eq_filter]
  exact List.filter_sublist l

/-- Claim C10.  `Soldier::removeWeapon(n)`, in `Military_project.cpp` and in
`Military_project_endofsemester.cpp` alike, leaves as assigned-weapon sequence the
old sequence with every weapon named `n` deleted: no remaining weapon is named
`n`, every weapon with another name occurs as often as before, and the remaining
weapons stand in their original relative order (the new sequence is a
subsequence of the old one). -/
theorem removeWeapon_deletes_exactly_named (s : MilitaryProject.Soldier)
    (s2 : EndOfSemester.Soldier) (n : String) :
    ((s.removeWeapon n).assignedWeapons
          = s.assignedWeapons.filter (fun w => decide (w.getName ≠ n)) ∧
        (∀ w ∈ (s.removeWeapon n).assignedWeapons, w.getName ≠ n) ∧
        (∀ w : MilitaryProject.Weapon, w.getName ≠ n →
          (s.removeWeapon n).assignedWeapons.count w = s.assignedWeapons.count w) ∧
        List.Sublist (s.removeWeapon n).assignedWeapons s.assignedWeapons) ∧
      ((s2.removeWeapon n).assignedWeapons
          = s2.assignedWeapons.filter (fun w => decide (w.getName ≠ n)) ∧
        (∀ w ∈ (s2.removeWeapon n).assignedWeapons, w.getName ≠ n) ∧
        (∀ w : EndOfSemester.Weapon, w.getName ≠ n →
          (s2.removeWeapon n).assignedWeapons.count w = s2.assignedWeapons.count w) ∧
        List.Sublist (s2.removeWeapon n).assignedWeapons s2.assignedWeapons) := by
  refine ⟨⟨?_, ?_, ?_, ?_⟩, ⟨?_, ?_, ?_, ?_⟩⟩
  · simp [MilitaryProject.Soldier.removeWeapon, remove_if_eq_filter]
  · intro w hw
    simpa using not_of_mem_remove_if _ _ hw
  · intro w hw
    exact count_remove_if _ _ (by simpa using hw)
  · exact remove_if_sublist _ _
  · simp [EndOfSemester.Soldier.removeWeapon, remove_if_eq_filter]
  · intro w hw
    simpa using not_of_mem_remove_if _ _ hw
  · intro w hw
    exact count_remove_if _ _ (by simpa using hw)
  · exact remove_if_sublist _ _

/-- Witness of `removeWeapon_deletes_exactly_named`: Alice holds the rifle, the
drone and the rifle again; after `removeWeapon("Rifle")` the drone, whose name
differs, is still there once, and nothing named "Rifle" is left. -/
theorem removeWeapon_deletes_exactly_named_witness :
    MilitaryProject.main.drone.getName ≠ "Rifle" ∧
      (({ MilitaryProject.main.alice with
            assignedWeapons := [MilitaryProject.main.rifle, MilitaryProject.main.drone,
              MilitaryProject.main.rifle] } : MilitaryProject.Soldier).removeWeapon
          "Rifle").assignedWeapons.count MilitaryProject.main.drone
        = List.count MilitaryProject.main.drone
            [MilitaryProject.main.rifle, MilitaryProject.main.drone,
              MilitaryProject.main.rifle] ∧
      (({ MilitaryProject.main.alice with
            assignedWeapons := [MilitaryProject.main.rifle, MilitaryProject.main.drone,
              MilitaryProject.main.rifle] } : MilitaryProject.Soldier).removeWeapon
          "Rifle").assignedWeapons = [MilitaryProject.main.drone] :=
  ⟨by decide,
    (removeWeapon_deletes_exactly_named
      { MilitaryProject.main.alice with
          assignedWeapons := [MilitaryProject.main.rifle, MilitaryProject.main.drone,
            MilitaryProject.main.rifle] }
      EndOfSemester.Example.alice "Rifle").1.2.2.1 MilitaryProject.main.drone (by decide),
    by decide⟩

/-! ## Facts about the ledger -/

namespace StdMap

variable {V : Type}

theorem setIn_setIn (l : List (String × V)) (k : String) (v v2 : V) :
    setIn (setIn l k v) k v2 = setIn l k v2 := by
  induction l with
  | nil => simp [setIn, keyLess_irrefl]
  | cons hd tl ih =>
    obtain ⟨k', v'⟩ := hd
    by_cases h1 : keyLess k k'
    · simp [setIn, h1, keyLess_irrefl]
    · by_cases h2 : k = k'
      · simp [setIn, h1, h2, keyLess_irrefl]
      · simp [setIn, h1, h2, ih]

theorem set_set (m : StdMap V) (k : String) (v v2 : V) : (m.set k v).set k v2 = m.set k v2 :=
  ext_entries (setIn_setIn m.entries k v v2)

theorem mem_set {m : StdMap V} {k : String} {v : V} {p : String × V}
    (h : p ∈ (m.set k v).entries) : p = (k, v) ∨ p ∈ m.entries :=
  mem_setIn h

theorem mem_of_find {m : StdMap V} {k : String} {v : V} (h : m.find k = some v) :
    (k, v) ∈ m.entries :=
  mem_of_findIn h

theorem find_of_mem {m : StdMap V} {k : String} {v : V} (h : (k, v) ∈ m.entries) :
    m.find k = some v :=
  findIn_of_mem m.ascending h

theorem mem_erase {m : StdMap V} {k : String} {p : String × V}
    (h : p ∈ (m.erase k).entries) : p ∈ m.entries ∧ p.1 ≠ k := by
  refine ⟨(eraseIn_sublist m.entries k).subset h, ?_⟩
  intro hk
  have h1 : (m.erase k).find p.1 = some p.2 := find_of_mem h
  rw [hk, find_erase_same] at h1
  exact Option.noConfusion h1

theorem count_key_of_findIn {l : List (String × V)} {k : String} {v : V} (hl : Ascending l)
    (h : findIn l k = some v) : (l.map Prod.fst).count k = 1 := by
  induction l with
  | nil => simp [findIn] at h
  | cons hd tl ih =>
    obtain ⟨k', v'⟩ := hd
    by_cases h1 : k' = k
    · subst h1
      have h2 : k' ∉ tl.map Prod.fst := by
        intro hmem
        obtain ⟨p, hp, hpk⟩ := List.mem_map.mp hmem
        have hlt := (List.pairwise_cons.mp hl).1 p hp
        rw [hpk] at hlt
        exact keyLess_irrefl k' hlt
      simp [List.count_cons, List.count_eq_zero_of_not_mem h2]
    · have h3 : findIn tl k = some v := by simpa [findIn, h1] using h
      simp [List.count_cons, h1, ih (List.pairwise_cons.mp hl).2 h3]

theorem count_key_of_find {m : StdMap V} {k : String} {v : V} (h : m.find k = some v) :
    (m.entries.map Prod.fst).count k = 1 :=
  count_key_of_findIn m.ascending h

theorem count_eq_zero_iff (m : StdMap V) (k : String) : m.count k = 0 ↔ m.find k = none := by
  unfold count
  cases m.find k <;> simp

/-- The two statements `m[k].first = a; m[k].second += q;` on a map of pairs put
the pair `(a, old + q)`, the sum as an `int`, at `k`, `old` being the former
quantity at `k`, or that of the value-initialised pair `d` when the key is new. -/
theorem stock_eq {A : Type} (m : StdMap (A × Int)) (k : String) (a : A) (q : Int)
    (d : A × Int) :
    (((m.subscript k d).update k (fun line => (a, line.2))).subscript k d).update k
        (fun line => (line.1, wrapInt (line.2 + q)))
      = m.set k (a, wrapInt (((m.find k).getD d).2 + q)) := by
  have h1 : ((m.subscript k d).update k (fun line => (a, line.2)))
      = m.set k (a, ((m.find k).getD d).2) := by
    cases h : m.find k with
    | none => simp [subscript, update, h, find_set_same, set_set]
    | some v => simp [subscript, update, h]
  rw [h1]
  simp [subscript, update, find_set_same, set_set]

end StdMap

namespace MilitaryProject.Inventory

theorem getWeaponQuantity_eq (inv : Inventory) (n : String) (d : Weapon × Int) (hd : d.2 = 0) :
    inv.getWeaponQuantity n = ((inv.weapons.find n).getD d).2 := by
  unfold getWeaponQuantity
  cases inv.weapons.find n <;> simp [hd]

theorem getSupplyQuantity_eq (inv : Inventory) (n : String) (d : String × Int) (hd : d.2 = 0) :
    inv.getSupplyQuantity n = ((inv.supplies.find n).getD d).2 := by
  unfold getSupplyQuantity
  cases inv.supplies.find n <;> simp [hd]

theorem addWeapon_weapons (inv : Inventory) (w : Weapon) (q : Int) :
    (inv.addWeapon w q).weapons
      = inv.weapons.set w.getName (w, wrapInt (inv.getWeaponQuantity w.getName + q)) := by
  rw [getWeaponQuantity_eq inv w.getName (default, 0) rfl]
  exact StdMap.stock_eq inv.weapons w.getName w q (default, 0)

theorem addSupply_supplies (inv : Inventory) (id desc : String) (q : Int) :
    (inv.addSupply id desc q).supplies
      = inv.supplies.set id (desc, wrapInt (inv.getSupplyQuantity id + q)) := by
  rw [getSupplyQuantity_eq inv id ("", 0) rfl]
  exact StdMap.stock_eq inv.supplies id desc q ("", 0)

theorem removeWeapon_weapons (inv : Inventory) (name : String) (qty : Int) :
    (inv.removeWeapon name qty).weapons
      = match inv.weapons.find name with
        | none => inv.weapons
        | some line =>
          if max 0 (line.2 - qty) = 0 then
            (inv.weapons.set name (line.1, max 0 (line.2 - qty))).erase name
          else inv.weapons.set name (line.1, max 0 (line.2 - qty)) := by
  unfold removeWeapon
  cases h : inv.weapons.find name with
  | none => simp [StdMap.count, h]
  | some line =>
    simp only [StdMap.count, h, StdMap.update, StdMap.find_set_same]
    by_cases h0 : max 0 (line.2 - qty) = 0 <;> simp [h0]

theorem removeSupply_supplies (inv : Inventory) (id : String) (qty : Int) :
    (inv.removeSupply id qty).supplies
      = match inv.supplies.find id with
        | none => inv.supplies
        | some line =>
          if max 0 (line.2 - qty) = 0 then
            (inv.supplies.set id (line.1, max 0 (line.2 - qty))).erase id
          else inv.supplies.set id (line.1, max 0 (line.2 - qty)) := by
  unfold removeSupply
  cases h : inv.supplies.find id with
  | none => simp [StdMap.count, h]
  | some line =>
    simp only [StdMap.count, h, StdMap.update, StdMap.find_set_same]
    by_cases h0 : max 0 (line.2 - qty) = 0 <;> simp [h0]

end MilitaryProject.Inventory

namespace EndOfSemester.Inventory

theorem addWeapon_weapons_eos (inv : Inventory) (w : Weapon) (q : Int) :
    (inv.addWeapon w q).weapons
      = inv.weapons.set w.getName
          (match inv.weapons.find w.getName with
            | some line => (line.1, wrapInt (line.2 + q))
            | none => (w, q)) := by
  unfold addWeapon
  cases h : inv.weapons.find w.getName with
  | none => simp [StdMap.count, h]
  | some line => simp [StdMap.count, h, StdMap.update]

theorem addSupply_supplies_eos (inv : Inventory) (id desc : String) (q : Int) :
    (inv.addSupply id desc q).supplies
      = inv.supplies.set id
          (match inv.supplies.find id with
            | some line => (line.1, wrapInt (line.2 + q))
            | none => (desc, q)) := by
  unfold addSupply
  cases h : inv.supplies.find id with
  | none => simp [StdMap.count, h]
  | some line => simp [StdMap.count, h, StdMap.update]

end EndOfSemester.Inventory

theorem wrapInt_eq_self {x : Int} (h1 : INT_MIN ≤ x) (h2 : x ≤ INT_MAX) : wrapInt x = x := by
  unfold wrapInt
  unfold INT_MIN at h1
  unfold INT_MAX at h2
  omega

theorem wrapInt_of_inInt {x : Int} (h : inInt x = true) : wrapInt x = x := by
  have h' : INT_MIN ≤ x ∧ x ≤ INT_MAX := by simpa [inInt] using h
  exact wrapInt_eq_self h'.1 h'.2

namespace MilitaryProject.Inventory

theorem getWeaponQuantity_addWeapon (inv : Inventory) (w : Weapon) (q : Int) :
    (inv.addWeapon w q).getWeaponQuantity w.getName
      = wrapInt (inv.getWeaponQuantity w.getName + q) := by
  have h := addWeapon_weapons inv w q
  simp only [getWeaponQuantity] at h ⊢
  rw [h, StdMap.find_set_same]

theorem getSupplyQuantity_addSupply (inv : Inventory) (id desc : String) (q : Int) :
    (inv.addSupply id desc q).getSupplyQuantity id
      = wrapInt (inv.getSupplyQuantity id + q) := by
  have h := addSupply_supplies inv id desc q
  simp only [getSupplyQuantity] at h ⊢
  rw [h, StdMap.find_set_same]

end MilitaryProject.Inventory

namespace EndOfSemester.Inventory

theorem getWeaponQuantity_addWeapon_eos (inv : Inventory) (w : Weapon) (q : Int) :
    (inv.addWeapon w q).getWeaponQuantity w.getName
      = if inv.weapons.count w.getName = 0 then q
        else wrapInt (inv.getWeaponQuantity w.getName + q) := by
  unfold getWeaponQuantity
  rw [addWeapon_weapons_eos, StdMap.find_set_same]
  cases h : inv.weapons.find w.getName with
  | none => simp [StdMap.count, h]
  | some line => simp [StdMap.count, h]

theorem getSupplyQuantity_addSupply_eos (inv : Inventory) (id desc : String) (q : Int) :
    (inv.addSupply id desc q).getSupplyQuantity id
      = if inv.supplies.count id = 0 then q
        else wrapInt (inv.getSupplyQuantity id + q) := by
  unfold getSupplyQuantity
  rw [addSupply_supplies_eos, StdMap.find_set_same]
  cases h : inv.supplies.find id with
  | none => simp [StdMap.count, h]
  | some line => simp [StdMap.count, h]

theorem getWeaponQuantity_addWeapon_in_range (inv : Inventory) (w : Weapon) (q : Int)
    (h1 : INT_MIN ≤ inv.getWeaponQuantity w.getName + q)
    (h2 : inv.getWeaponQuantity w.getName + q ≤ INT_MAX) :
    (inv.addWeapon w q).getWeaponQuantity w.getName = inv.getWeaponQuantity w.getName + q := by
  rw [getWeaponQuantity_addWeapon_eos]
  split_ifs with h0
  · have hnone : inv.weapons.find w.getName = none := (StdMap.count_eq_zero_iff _ _).mp h0
    simp [getWeaponQuantity, hnone]
  · exact wrapInt_eq_self h1 h2

theorem getSupplyQuantity_addSupply_in_range (inv : Inventory) (id desc : String) (q : Int)
    (h1 : INT_MIN ≤ inv.getSupplyQuantity id + q)
    (h2 : inv.getSupplyQuantity id + q ≤ INT_MAX) :
    (inv.addSupply id desc q).getSupplyQuantity id = inv.getSupplyQuantity id + q := by
  rw [getSupplyQuantity_addSupply_eos]
  split_ifs with h0
  · have hnone : inv.supplies.find id = none := (StdMap.count_eq_zero_iff _ _).mp h0
    simp [getSupplyQuantity, hnone]
  · exact wrapInt_eq_self h1 h2

end EndOfSemester.Inventory

/-- Claim C5, as the code has it.  Stocking accumulates as long as the sum is an
`int`, in `Military_project.cpp` and in `Military_project_endofsemester.cpp`.
After `addWeapon(w, q)`, when the quantity reported before (0 without a line) plus
`q` lies within `INT_MIN..INT_MAX`, `getWeaponQuantity(w.name)` is that sum; the
quantity of every other weapon name and of every supply id is as before, whatever
`q` is.  On an inventory with no line for `w`, `addWeapon(w, 5)` twice yields
quantity 10, and the weapon map has exactly one key equal to `w.name`. -/
theorem addWeapon_accumulates_within_int (inv : MilitaryProject.Inventory)
    (w : MilitaryProject.Weapon) (inv2 : EndOfSemester.Inventory) (w2 : EndOfSemester.Weapon)
    (q : Int) :
    ((INT_MIN ≤ inv.getWeaponQuantity w.getName + q →
          inv.getWeaponQuantity w.getName + q ≤ INT_MAX →
          (inv.addWeapon w q).getWeaponQuantity w.getName
            = inv.getWeaponQuantity w.getName + q) ∧
        (∀ n, n ≠ w.getName →
          (inv.addWeapon w q).getWeaponQuantity n = inv.getWeaponQuantity n) ∧
        (∀ id, (inv.addWeapon w q).getSupplyQuantity id = inv.getSupplyQuantity id) ∧
        (inv.weapons.count w.getName = 0 →
          ((inv.addWeapon w 5).addWeapon w 5).getWeaponQuantity w.getName = 10 ∧
            (((inv.addWeapon w 5).addWeapon w 5).weapons.entries.map Prod.fst).count w.getName
              = 1)) ∧
      ((INT_MIN ≤ inv2.getWeaponQuantity w2.getName + q →
          inv2.getWeaponQuantity w2.getName + q ≤ INT_MAX →
          (inv2.addWeapon w2 q).getWeaponQuantity w2.getName
            = inv2.getWeaponQuantity w2.getName + q) ∧
        (∀ n, n ≠ w2.getName →
          (inv2.addWeapon w2 q).getWeaponQuantity n = inv2.getWeaponQuantity n) ∧
        (∀ id, (inv2.addWeapon w2 q).getSupplyQuantity id = inv2.getSupplyQuantity id) ∧
        (inv2.weapons.count w2.getName = 0 →
          ((inv2.addWeapon w2 5).addWeapon w2 5).getWeaponQuantity w2.getName = 10 ∧
            (((inv2.addWeapon w2 5).addWeapon w2 5).weapons.entries.map Prod.fst).count
              w2.getName = 1)) := by
  have hA : ∀ (i : MilitaryProject.Inventory) (x : Int),
      INT_MIN ≤ i.getWeaponQuantity w.getName + x → i.getWeaponQuantity w.getName + x ≤ INT_MAX →
      (i.addWeapon w x).getWeaponQuantity w.getName = i.getWeaponQuantity w.getName + x := by
    intro i x h1 h2
    rw [MilitaryProject.Inventory.getWeaponQuantity_addWeapon, wrapInt_eq_self h1 h2]
  have hB := fun (i : EndOfSemester.Inventory) (x : Int) =>
    EndOfSemester.Inventory.getWeaponQuantity_addWeapon_in_range i w2 x
  refine ⟨⟨hA inv q, ?_, ?_, ?_⟩, ⟨hB inv2 q, ?_, ?_, ?_⟩⟩
  · intro n hn
    simp only [MilitaryProject.Inventory.getWeaponQuantity,
      MilitaryProject.Inventory.addWeapon_weapons, StdMap.find_set_other _ _ _ hn]
  · intro id
    rfl
  · intro h0
    have hnone : inv.weapons.find w.getName = none := (StdMap.count_eq_zero_iff _ _).mp h0
    have hq0 : inv.getWeaponQuantity w.getName = 0 := by
      simp [MilitaryProject.Inventory.getWeaponQuantity, hnone]
    have h5 : (inv.addWeapon w 5).getWeaponQuantity w.getName = 5 := by
      rw [hA inv 5 (by rw [hq0]; decide) (by rw [hq0]; decide), hq0]; rfl
    refine ⟨by rw [hA _ 5 (by rw [h5]; decide) (by rw [h5]; decide), h5]; rfl, ?_⟩
    apply StdMap.count_key_of_find
    rw [MilitaryProject.Inventory.addWeapon_weapons]
    exact StdMap.find_set_same _ _ _
  · intro n hn
    simp only [EndOfSemester.Inventory.getWeaponQuantity,
      EndOfSemester.Inventory.addWeapon_weapons_eos, StdMap.find_set_other _ _ _ hn]
  · intro id
    have hs : (inv2.addWeapon w2 q).supplies = inv2.supplies := by
      simp only [EndOfSemester.Inventory.addWeapon]
      split_ifs <;> rfl
    simp only [EndOfSemester.Inventory.getSupplyQuantity, hs]
  · intro h0
    have hnone : inv2.weapons.find w2.getName = none := (StdMap.count_eq_zero_iff _ _).mp h0
    have hq0 : inv2.getWeaponQuantity w2.getName = 0 := by
      simp [EndOfSemester.Inventory.getWeaponQuantity, hnone]
    have h5 : (inv2.addWeapon w2 5).getWeaponQuantity w2.getName = 5 := by
      rw [hB inv2 5 (by rw [hq0]; decide) (by rw [hq0]; decide), hq0]; rfl
    refine ⟨by rw [hB _ 5 (by rw [h5]; decide) (by rw [h5]; decide), h5]; rfl, ?_⟩
    apply StdMap.count_key_of_find
    rw [EndOfSemester.Inventory.addWeapon_weapons_eos]
    exact StdMap.find_set_same _ _ _

/-- Witness of `addWeapon_accumulates_within_int`: the rifle stocked by 5 in a new
inventory and by 5 again, in both programs; the sums 0 + 5 and 5 + 5 are within
the range of `int`. -/
theorem addWeapon_accumulates_within_int_witness :
    ((INT_MIN ≤ ((MilitaryProject.Inventory.new AccessLevel.SECRET).addWeapon
            MilitaryProject.main.rifle 5).getWeaponQuantity MilitaryProject.main.rifle.getName + 5 ∧
        ((MilitaryProject.Inventory.new AccessLevel.SECRET).addWeapon
            MilitaryProject.main.rifle 5).getWeaponQuantity MilitaryProject.main.rifle.getName + 5
          ≤ INT_MAX) ∧
      (((MilitaryProject.Inventory.new AccessLevel.SECRET).addWeapon
          MilitaryProject.main.rifle 5).addWeapon
          MilitaryProject.main.rifle 5).getWeaponQuantity MilitaryProject.main.rifle.getName
        = ((MilitaryProject.Inventory.new AccessLevel.SECRET).addWeapon
            MilitaryProject.main.rifle 5).getWeaponQuantity MilitaryProject.main.rifle.getName
          + 5) ∧
    ((INT_MIN ≤ ((EndOfSemester.Inventory.new AccessLevel.CONFIDENTIAL).addWeapon
            EndOfSemester.Example.rifle 5).getWeaponQuantity EndOfSemester.Example.rifle.getName
            + 5 ∧
        ((EndOfSemester.Inventory.new AccessLevel.CONFIDENTIAL).addWeapon
            EndOfSemester.Example.rifle 5).getWeaponQuantity EndOfSemester.Example.rifle.getName
            + 5 ≤ INT_MAX) ∧
      (((EndOfSemester.Inventory.new AccessLevel.CONFIDENTIAL).addWeapon
          EndOfSemester.Example.rifle 5).addWeapon
          EndOfSemester.Example.rifle 5).getWeaponQuantity EndOfSemester.Example.rifle.getName
        = ((EndOfSemester.Inventory.new AccessLevel.CONFIDENTIAL).addWeapon
            EndOfSemester.Example.rifle 5).getWeaponQuantity EndOfSemester.Example.rifle.getName
          + 5) ∧
    ((MilitaryProject.Inventory.new AccessLevel.SECRET).weapons.count
          MilitaryProject.main.rifle.getName = 0 ∧
      (((MilitaryProject.Inventory.new AccessLevel.SECRET).addWeapon
          MilitaryProject.main.rifle 5).addWeapon
          MilitaryProject.main.rifle 5).getWeaponQuantity MilitaryProject.main.rifle.getName
        = 10) ∧
    ((EndOfSemester.Inventory.new AccessLevel.CONFIDENTIAL).weapons.count
          EndOfSemester.Example.rifle.getName = 0 ∧
      (((EndOfSemester.Inventory.new AccessLevel.CONFIDENTIAL).addWeapon
          EndOfSemester.Example.rifle 5).addWeapon
          EndOfSemester.Example.rifle 5).getWeaponQuantity EndOfSemester.Example.rifle.getName
        = 10) :=
  ⟨⟨⟨by decide, by decide⟩,
    (addWeapon_accumulates_within_int
      ((MilitaryProject.Inventory.new AccessLevel.SECRET).addWeapon MilitaryProject.main.rifle 5)
      MilitaryProject.main.rifle (EndOfSemester.Inventory.new AccessLevel.CONFIDENTIAL)
      EndOfSemester.Example.rifle 5).1.1 (by decide) (by decide)⟩,
   ⟨⟨by decide, by decide⟩,
    (addWeapon_accumulates_within_int (MilitaryProject.Inventory.new AccessLevel.SECRET)
      MilitaryProject.main.rifle
      ((EndOfSemester.Inventory.new AccessLevel.CONFIDENTIAL).addWeapon
        EndOfSemester.Example.rifle 5)
      EndOfSemester.Example.rifle 5).2.1 (by decide) (by decide)⟩,
   ⟨by decide,
    ((addWeapon_accumulates_within_int (MilitaryProject.Inventory.new AccessLevel.SECRET)
      MilitaryProject.main.rifle (EndOfSemester.Inventory.new AccessLevel.CONFIDENTIAL)
      EndOfSemester.Example.rifle 5).1.2.2.2 (by decide)).1⟩,
   ⟨by decide,
    ((addWeapon_accumulates_within_int (MilitaryProject.Inventory.new AccessLevel.SECRET)
      MilitaryProject.main.rifle (EndOfSemester.Inventory.new AccessLevel.CONFIDENTIAL)
      EndOfSemester.Example.rifle 5).2.2.2.2 (by decide)).1⟩⟩

/-- Counterexample to claim C5 as stated: a new inventory is stocked with
2147483647 rifles, the greatest `int`, and then with 1 more.  The quantity
reported before the second call is 2147483647, the quantity reported after it is
-2147483648 and not 2147483647 + 1.  This is so in both programs. -/
theorem addWeapon_overflow_counterexample :
    (((MilitaryProject.Inventory.new AccessLevel.SECRET).addWeapon MilitaryProject.main.rifle
          2147483647).getWeaponQuantity MilitaryProject.main.rifle.getName = 2147483647 ∧
      (((MilitaryProject.Inventory.new AccessLevel.SECRET).addWeapon MilitaryProject.main.rifle
          2147483647).addWeapon MilitaryProject.main.rifle 1).getWeaponQuantity
          MilitaryProject.main.rifle.getName = -2147483648 ∧
      (((MilitaryProject.Inventory.new AccessLevel.SECRET).addWeapon MilitaryProject.main.rifle
          2147483647).addWeapon MilitaryProject.main.rifle 1).getWeaponQuantity
          MilitaryProject.main.rifle.getName
        ≠ ((MilitaryProject.Inventory.new AccessLevel.SECRET).addWeapon
            MilitaryProject.main.rifle 2147483647).getWeaponQuantity
            MilitaryProject.main.rifle.getName + 1) ∧
    (((EndOfSemester.Inventory.new AccessLevel.CONFIDENTIAL).addWeapon
          EndOfSemester.Example.rifle 2147483647).getWeaponQuantity
          EndOfSemester.Example.rifle.getName = 2147483647 ∧
      (((EndOfSemester.Inventory.new AccessLevel.CONFIDENTIAL).addWeapon
          EndOfSemester.Example.rifle 2147483647).addWeapon
          EndOfSemester.Example.rifle 1).getWeaponQuantity
          EndOfSemester.Example.rifle.getName = -2147483648 ∧
      (((EndOfSemester.Inventory.new AccessLevel.CONFIDENTIAL).addWeapon
          EndOfSemester.Example.rifle 2147483647).addWeapon
          EndOfSemester.Example.rifle 1).getWeaponQuantity
          EndOfSemester.Example.rifle.getName
        ≠ ((EndOfSemester.Inventory.new AccessLevel.CONFIDENTIAL).addWeapon
            EndOfSemester.Example.rifle 2147483647).getWeaponQuantity
            EndOfSemester.Example.rifle.getName + 1) := by
  decide

/-! ## Consuming stock -/

namespace MilitaryProject.Inventory

theorem getWeaponQuantity_removeWeapon (inv : Inventory) (name : String) (qty : Int)
    (line : Weapon × Int) (h : inv.weapons.find name = some line) :
    (inv.removeWeapon name qty).getWeaponQuantity name = max 0 (line.2 - qty) := by
  unfold getWeaponQuantity
  rw [removeWeapon_weapons, h]
  by_cases h0 : max 0 (line.2 - qty) = 0
  · simp [h0, StdMap.find_erase_same]
  · simp [h0, StdMap.find_set_same]

theorem getSupplyQuantity_removeSupply (inv : Inventory) (id : String) (qty : Int)
    (line : String × Int) (h : inv.supplies.find id = some line) :
    (inv.removeSupply id qty).getSupplyQuantity id = max 0 (line.2 - qty) := by
  unfold getSupplyQuantity
  rw [removeSupply_supplies, h]
  by_cases h0 : max 0 (line.2 - qty) = 0
  · simp [h0, StdMap.find_erase_same]
  · simp [h0, StdMap.find_set_same]

end MilitaryProject.Inventory

namespace EndOfSemester.Inventory

theorem getWeaponQuantity_removeWeapon_eos (inv : Inventory) (name : String) (qty : Int)
    (line : Weapon × Int) (h : inv.weapons.find name = some line) :
    (inv.removeWeapon name qty).getWeaponQuantity name = max 0 (line.2 - qty) := by
  unfold getWeaponQuantity removeWeapon
  rw [h]
  by_cases h0 : line.2 - qty ≤ 0
  · simp [h0, StdMap.find_erase_same]
  · simp [h0, StdMap.find_set_same, le_of_lt (not_le.mp h0)]

theorem getSupplyQuantity_removeSupply_eos (inv : Inventory) (id : String) (qty : Int)
    (line : String × Int) (h : inv.supplies.find id = some line) :
    (inv.removeSupply id qty).getSupplyQuantity id = max 0 (line.2 - qty) := by
  unfold getSupplyQuantity removeSupply
  rw [h]
  by_cases h0 : line.2 - qty ≤ 0
  · simp [h0, StdMap.find_erase_same]
  · simp [h0, StdMap.find_set_same, le_of_lt (not_le.mp h0)]

end EndOfSemester.Inventory

/-- Claim C6.  Consuming clamps at zero.  In `Military_project.cpp`, for an
inventory holding a line for `name` with quantity `q` and for every `qty` (so in
particular for `q >= 0` and `qty >= 0`), after `removeWeapon(name, qty)` the value
of `getWeaponQuantity(name)` is `max(0, q - qty)`, which is not negative; the same
holds for `removeSupply` and `getSupplyQuantity`.  On an inventory without a line
for the weapon, `addWeapon(def, 10)` followed by `removeWeapon(name, 15)` yields
`getWeaponQuantity(name) == 0`.  `Military_project_endofsemester.cpp` gives the
same quantities. -/
theorem removeWeapon_clamps_at_zero (inv : MilitaryProject.Inventory) (name id : String)
    (wpn : MilitaryProject.Weapon) (desc : String) (q qs qty : Int)
    (w : MilitaryProject.Weapon)
    (inv2 : EndOfSemester.Inventory) (wpn2 : EndOfSemester.Weapon) :
    (inv.weapons.find name = some (wpn, q) →
        (inv.removeWeapon name qty).getWeaponQuantity name = max 0 (q - qty) ∧
          0 ≤ (inv.removeWeapon name qty).getWeaponQuantity name) ∧
      (inv.supplies.find id = some (desc, qs) →
        (inv.removeSupply id qty).getSupplyQuantity id = max 0 (qs - qty) ∧
          0 ≤ (inv.removeSupply id qty).getSupplyQuantity id) ∧
      (inv.weapons.count w.getName = 0 →
        ((inv.addWeapon w 10).removeWeapon w.getName 15).getWeaponQuantity w.getName = 0) ∧
      (inv2.weapons.find name = some (wpn2, q) →
        (inv2.removeWeapon name qty).getWeaponQuantity name = max 0 (q - qty) ∧
          0 ≤ (inv2.removeWeapon name qty).getWeaponQuantity name) ∧
      (inv2.supplies.find id = some (desc, qs) →
        (inv2.removeSupply id qty).getSupplyQuantity id = max 0 (qs - qty) ∧
          0 ≤ (inv2.removeSupply id qty).getSupplyQuantity id) := by
  refine ⟨?_, ?_, ?_, ?_, ?_⟩
  · intro h
    have e := MilitaryProject.Inventory.getWeaponQuantity_removeWeapon inv name qty _ h
    exact ⟨e, by rw [e]; exact le_max_left _ _⟩
  · intro h
    have e := MilitaryProject.Inventory.getSupplyQuantity_removeSupply inv id qty _ h
    exact ⟨e, by rw [e]; exact le_max_left _ _⟩
  · intro h0
    have hnone : inv.weapons.find w.getName = none := (StdMap.count_eq_zero_iff _ _).mp h0
    have hq0 : inv.getWeaponQuantity w.getName = 0 := by
      simp [MilitaryProject.Inventory.getWeaponQuantity, hnone]
    have hf : (inv.addWeapon w 10).weapons.find w.getName = some (w, wrapInt (0 + 10)) := by
      rw [MilitaryProject.Inventory.addWeapon_weapons, StdMap.find_set_same, hq0]
    rw [MilitaryProject.Inventory.getWeaponQuantity_removeWeapon _ _ _ _ hf]
    show max 0 (wrapInt (0 + 10) - 15) = 0
    decide
  · intro h
    have e := EndOfSemester.Inventory.getWeaponQuantity_removeWeapon_eos inv2 name qty _ h
    exact ⟨e, by rw [e]; exact le_max_left _ _⟩
  · intro h
    have e := EndOfSemester.Inventory.getSupplyQuantity_removeSupply_eos inv2 id qty _ h
    exact ⟨e, by rw [e]; exact le_max_left _ _⟩

/-- Witness of `removeWeapon_clamps_at_zero`: the inventory of `main` holds 10
rifles and 20 medkits; removing 15 rifles, or 25 medkits, leaves quantity 0, and
so does stocking 10 rifles in a new inventory and removing 15. -/
theorem removeWeapon_clamps_at_zero_witness :
    (MilitaryProject.main.inv.weapons.find "Rifle" = some (MilitaryProject.main.rifle, 10) ∧
      (MilitaryProject.main.inv.removeWeapon "Rifle" 15).getWeaponQuantity "Rifle"
        = max 0 (10 - 15)) ∧
    (MilitaryProject.main.inv.supplies.find "MED01" = some ("Medkit", 20) ∧
      (MilitaryProject.main.inv.removeSupply "MED01" 15).getSupplyQuantity "MED01"
        = max 0 (20 - 15)) ∧
    ((MilitaryProject.Inventory.new AccessLevel.SECRET).weapons.count
          MilitaryProject.main.rifle.getName = 0 ∧
      (((MilitaryProject.Inventory.new AccessLevel.SECRET).addWeapon MilitaryProject.main.rifle
          10).removeWeapon MilitaryProject.main.rifle.getName 15).getWeaponQuantity
          MilitaryProject.main.rifle.getName = 0) ∧
    (EndOfSemester.Example.inventory.weapons.find "Rifle"
        = some (EndOfSemester.Example.rifle, 10) ∧
      (EndOfSemester.Example.inventory.removeWeapon "Rifle" 15).getWeaponQuantity "Rifle"
        = max 0 (10 - 15)) ∧
    (EndOfSemester.Example.inventory.supplies.find "MED01" = some ("Medkit", 20) ∧
      (EndOfSemester.Example.inventory.removeSupply "MED01" 15).getSupplyQuantity "MED01"
        = max 0 (20 - 15)) :=
  ⟨⟨by decide,
    ((removeWeapon_clamps_at_zero MilitaryProject.main.inv "Rifle" "MED01"
      MilitaryProject.main.rifle "Medkit" 10 20 15 MilitaryProject.main.rifle
      EndOfSemester.Example.inventory EndOfSemester.Example.rifle).1 (by decide)).1⟩,
   ⟨by decide,
    ((removeWeapon_clamps_at_zero MilitaryProject.main.inv "Rifle" "MED01"
      MilitaryProject.main.rifle "Medkit" 10 20 15 MilitaryProject.main.rifle
      EndOfSemester.Example.inventory EndOfSemester.Example.rifle).2.1 (by decide)).1⟩,
   ⟨by decide,
    (removeWeapon_clamps_at_zero (MilitaryProject.Inventory.new AccessLevel.SECRET) "Rifle"
      "MED01" MilitaryProject.main.rifle "Medkit" 10 20 15 MilitaryProject.main.rifle
      EndOfSemester.Example.inventory EndOfSemester.Example.rifle).2.2.1 (by decide)⟩,
   ⟨by decide,
    ((removeWeapon_clamps_at_zero MilitaryProject.main.inv "Rifle" "MED01"
      MilitaryProject.main.rifle "Medkit" 10 20 15 MilitaryProject.main.rifle
      EndOfSemester.Example.inventory EndOfSemester.Example.rifle).2.2.2.1 (by decide)).1⟩,
   ⟨by decide,
    ((removeWeapon_clamps_at_zero MilitaryProject.main.inv "Rifle" "MED01"
      MilitaryProject.main.rifle "Medkit" 10 20 15 MilitaryProject.main.rifle
      EndOfSemester.Example.inventory EndOfSemester.Example.rifle).2.2.2.2 (by decide)).1⟩⟩

/-! ## Stocking a non-positive quantity -/

/-- Claim C7, as the code has it.  `addWeapon` and `addSupply` have no check on
the quantity and no way to report an error: a quantity `qty <= 0` is added like
any other.  Afterwards the line exists, and the reported quantity is the `int`
sum of the quantity reported before (0 without a line) and `qty`: exactly the
former quantity plus `qty` whenever that lies within `INT_MIN..INT_MAX`.  A new
key so receives a line with quantity `qty`, zero or negative.  This is so in
`Military_project.cpp` and in `Military_project_endofsemester.cpp`. -/
theorem addWeapon_accepts_nonpositive (inv : MilitaryProject.Inventory)
    (w : MilitaryProject.Weapon) (inv2 : EndOfSemester.Inventory) (w2 : EndOfSemester.Weapon)
    (id desc : String) (qty : Int) :
    qty ≤ 0 →
      ((inv.addWeapon w qty).weapons.count w.getName = 1 ∧
        (inv.addWeapon w qty).getWeaponQuantity w.getName
          = wrapInt (inv.getWeaponQuantity w.getName + qty) ∧
        (INT_MIN ≤ inv.getWeaponQuantity w.getName + qty →
          inv.getWeaponQuantity w.getName + qty ≤ INT_MAX →
          (inv.addWeapon w qty).getWeaponQuantity w.getName
            = inv.getWeaponQuantity w.getName + qty) ∧
        (inv.addSupply id desc qty).supplies.count id = 1 ∧
        (inv.addSupply id desc qty).getSupplyQuantity id
          = wrapInt (inv.getSupplyQuantity id + qty) ∧
        (INT_MIN ≤ inv.getSupplyQuantity id + qty →
          inv.getSupplyQuantity id + qty ≤ INT_MAX →
          (inv.addSupply id desc qty).getSupplyQuantity id
            = inv.getSupplyQuantity id + qty)) ∧
      ((inv2.addWeapon w2 qty).weapons.count w2.getName = 1 ∧
        (inv2.addWeapon w2 qty).getWeaponQuantity w2.getName
          = (if inv2.weapons.count w2.getName = 0 then qty
              else wrapInt (inv2.getWeaponQuantity w2.getName + qty)) ∧
        (INT_MIN ≤ inv2.getWeaponQuantity w2.getName + qty →
          inv2.getWeaponQuantity w2.getName + qty ≤ INT_MAX →
          (inv2.addWeapon w2 qty).getWeaponQuantity w2.getName
            = inv2.getWeaponQuantity w2.getName + qty) ∧
        (inv2.addSupply id desc qty).supplies.count id = 1 ∧
        (inv2.addSupply id desc qty).getSupplyQuantity id
          = (if inv2.supplies.count id = 0 then qty
              else wrapInt (inv2.getSupplyQuantity id + qty)) ∧
        (INT_MIN ≤ inv2.getSupplyQuantity id + qty →
          inv2.getSupplyQuantity id + qty ≤ INT_MAX →
          (inv2.addSupply id desc qty).getSupplyQuantity id
            = inv2.getSupplyQuantity id + qty)) := by
  intro _
  refine ⟨⟨?_, ?_, ?_, ?_, ?_, ?_⟩, ⟨?_, ?_, ?_, ?_, ?_, ?_⟩⟩
  · simp [MilitaryProject.Inventory.addWeapon_weapons, StdMap.count, StdMap.find_set_same]
  · exact MilitaryProject.Inventory.getWeaponQuantity_addWeapon inv w qty
  · intro h1 h2
    rw [MilitaryProject.Inventory.getWeaponQuantity_addWeapon, wrapInt_eq_self h1 h2]
  · simp [MilitaryProject.Inventory.addSupply_supplies, StdMap.count, StdMap.find_set_same]
  · exact MilitaryProject.Inventory.getSupplyQuantity_addSupply inv id desc qty
  · intro h1 h2
    rw [MilitaryProject.Inventory.getSupplyQuantity_addSupply, wrapInt_eq_self h1 h2]
  · simp [EndOfSemester.Inventory.addWeapon_weapons_eos, StdMap.count, StdMap.find_set_same]
  · exact EndOfSemester.Inventory.getWeaponQuantity_addWeapon_eos inv2 w2 qty
  · exact EndOfSemester.Inventory.getWeaponQuantity_addWeapon_in_range inv2 w2 qty
  · simp [EndOfSemester.Inventory.addSupply_supplies_eos, StdMap.count, StdMap.find_set_same]
  · exact EndOfSemester.Inventory.getSupplyQuantity_addSupply_eos inv2 id desc qty
  · exact EndOfSemester.Inventory.getSupplyQuantity_addSupply_in_range inv2 id desc qty

/-- Witness of `addWeapon_accepts_nonpositive`: quantity -5 for a new key; the sum
0 + (-5) lies within the range of `int`. -/
theorem addWeapon_accepts_nonpositive_witness :
    (-5 : Int) ≤ 0 ∧
      (INT_MIN ≤ (MilitaryProject.Inventory.new AccessLevel.SECRET).getWeaponQuantity
          MilitaryProject.main.rifle.getName + (-5) ∧
        (MilitaryProject.Inventory.new AccessLevel.SECRET).getWeaponQuantity
          MilitaryProject.main.rifle.getName + (-5) ≤ INT_MAX) ∧
      ((MilitaryProject.Inventory.new AccessLevel.SECRET).addWeapon MilitaryProject.main.rifle
          (-5)).getWeaponQuantity MilitaryProject.main.rifle.getName
        = (MilitaryProject.Inventory.new AccessLevel.SECRET).getWeaponQuantity
            MilitaryProject.main.rifle.getName + (-5) :=
  ⟨by decide, ⟨by decide, by decide⟩,
    ((addWeapon_accepts_nonpositive (MilitaryProject.Inventory.new AccessLevel.SECRET)
      MilitaryProject.main.rifle (EndOfSemester.Inventory.new AccessLevel.CONFIDENTIAL)
      EndOfSemester.Example.rifle "MED01" "Medkit" (-5)) (by decide)).1.2.2.1
      (by decide) (by decide)⟩

/-- Counterexample to claim C7 as stated: with quantity 0, and with quantity -5,
`addWeapon` and `addSupply` of `Military_project.cpp` change a new inventory: a
line is created, with quantity 0, respectively -5, which `getWeaponQuantity` and
`getSupplyQuantity` then report. -/
theorem addWeapon_nonpositive_counterexample :
    ((MilitaryProject.Inventory.new AccessLevel.SECRET).addWeapon MilitaryProject.main.rifle
        0).weapons.entries = [("Rifle", (MilitaryProject.main.rifle, 0))] ∧
      (MilitaryProject.Inventory.new AccessLevel.SECRET).addWeapon MilitaryProject.main.rifle 0
        ≠ MilitaryProject.Inventory.new AccessLevel.SECRET ∧
      ((MilitaryProject.Inventory.new AccessLevel.SECRET).addWeapon MilitaryProject.main.rifle
        (-5)).getWeaponQuantity "Rifle" = -5 ∧
      (MilitaryProject.Inventory.new AccessLevel.SECRET).getWeaponQuantity "Rifle" = 0 ∧
      ((MilitaryProject.Inventory.new AccessLevel.SECRET).addSupply "MED01" "Medkit"
        (-5)).supplies.entries = [("MED01", ("Medkit", -5))] ∧
      (MilitaryProject.Inventory.new AccessLevel.SECRET).addSupply "MED01" "Medkit" (-5)
        ≠ MilitaryProject.Inventory.new AccessLevel.SECRET := by
  decide

/-! ## The quantity invariant of the ledger -/

namespace StdMap

theorem positiveQty_empty {A : Type} : (StdMap.empty : StdMap (A × Int)).PositiveQty := by
  intro e he
  simp [StdMap.empty] at he

theorem positiveQty_set {A : Type} {m : StdMap (A × Int)} (hm : m.PositiveQty) (k : String)
    (a : A) {q : Int} (hq : 0 < q) : (m.set k (a, q)).PositiveQty := by
  intro e he
  rcases mem_set he with h | h
  · rw [h]; exact hq
  · exact hm e h

theorem positiveQty_erase_set {A : Type} {m : StdMap (A × Int)} (hm : m.PositiveQty)
    (k : String) (v : A × Int) : ((m.set k v).erase k).PositiveQty := by
  intro e he
  obtain ⟨h1, h2⟩ := mem_erase he
  rcases mem_set h1 with h | h
  · exact absurd (by rw [h]) h2
  · exact hm e h

theorem positiveQty_find {A : Type} {m : StdMap (A × Int)} (hm : m.PositiveQty) {k : String}
    {line : A × Int} (h : m.find k = some line) : 0 < line.2 :=
  hm (k, line) (mem_of_find h)

theorem positiveQty_getD {A : Type} {m : StdMap (A × Int)} (hm : m.PositiveQty) (k : String)
    (d : A × Int) (hd : d.2 = 0) : 0 ≤ ((m.find k).getD d).2 := by
  cases h : m.find k with
  | none => simp [hd]
  | some line => exact le_of_lt (positiveQty_find hm h)

end StdMap

namespace MilitaryProject.Inventory

theorem getWeaponQuantity_nonneg (inv : Inventory) (h : inv.weapons.PositiveQty) (n : String) :
    0 ≤ inv.getWeaponQuantity n := by
  rw [getWeaponQuantity_eq inv n (default, 0) rfl]
  exact StdMap.positiveQty_getD h n _ rfl

theorem getSupplyQuantity_nonneg (inv : Inventory) (h : inv.supplies.PositiveQty) (n : String) :
    0 ≤ inv.getSupplyQuantity n := by
  rw [getSupplyQuantity_eq inv n ("", 0) rfl]
  exact StdMap.positiveQty_getD h n _ rfl

theorem removeWeapon_supplies (inv : Inventory) (name : String) (qty : Int) :
    (inv.removeWeapon name qty).supplies = inv.supplies := by
  unfold removeWeapon
  split_ifs
  · dsimp only
    cases (inv.weapons.update name fun line => (line.1, max 0 (line.2 - qty))).find name with
    | none => rfl
    | some line => dsimp only; split_ifs <;> rfl
  · rfl

theorem removeSupply_weapons (inv : Inventory) (id : String) (qty : Int) :
    (inv.removeSupply id qty).weapons = inv.weapons := by
  unfold removeSupply
  split_ifs
  · dsimp only
    cases (inv.supplies.update id fun line => (line.1, max 0 (line.2 - qty))).find id with
    | none => rfl
    | some line => dsimp only; split_ifs <;> rfl
  · rfl

theorem positiveQty_apply (inv : Inventory) (op : LedgerOp) (hop : op.addsPositive = true)
    (hr : inv.inRange op = true)
    (h : inv.weapons.PositiveQty ∧ inv.supplies.PositiveQty) :
    (inv.apply op).weapons.PositiveQty ∧ (inv.apply op).supplies.PositiveQty := by
  obtain ⟨hw, hs⟩ := h
  cases op with
  | addWeapon weapon qty =>
    have hq : 0 < qty := by simpa [LedgerOp.addsPositive] using hop
    refine ⟨?_, hs⟩
    have hin : inInt (inv.getWeaponQuantity weapon.getName + qty) = true := hr
    show (inv.addWeapon weapon qty).weapons.PositiveQty
    rw [addWeapon_weapons, wrapInt_of_inInt hin]
    exact StdMap.positiveQty_set hw _ _
      (add_pos_of_nonneg_of_pos (getWeaponQuantity_nonneg inv hw _) hq)
  | removeWeapon name qty =>
    refine ⟨?_, by
      show (inv.removeWeapon name qty).supplies.PositiveQty
      rw [removeWeapon_supplies]; exact hs⟩
    show (inv.removeWeapon name qty).weapons.PositiveQty
    rw [removeWeapon_weapons]
    cases hf : inv.weapons.find name with
    | none => exact hw
    | some line =>
      by_cases h0 : max 0 (line.2 - qty) = 0
      · simp only [h0, if_true]
        exact StdMap.positiveQty_erase_set hw _ _
      · simp only [h0, if_false]
        exact StdMap.positiveQty_set hw _ _
          (lt_of_le_of_ne (le_max_left _ _) (Ne.symm h0))
  | addSupply id desc qty =>
    have hq : 0 < qty := by simpa [LedgerOp.addsPositive] using hop
    refine ⟨hw, ?_⟩
    have hin : inInt (inv.getSupplyQuantity id + qty) = true := hr
    show (inv.addSupply id desc qty).supplies.PositiveQty
    rw [addSupply_supplies, wrapInt_of_inInt hin]
    exact StdMap.positiveQty_set hs _ _
      (add_pos_of_nonneg_of_pos (getSupplyQuantity_nonneg inv hs _) hq)
  | removeSupply id qty =>
    refine ⟨by
      show (inv.removeSupply id qty).weapons.PositiveQty
      rw [removeSupply_weapons]; exact hw, ?_⟩
    show (inv.removeSupply id qty).supplies.PositiveQty
    rw [removeSupply_supplies]
    cases hf : inv.supplies.find id with
    | none => exact hs
    | some line =>
      by_cases h0 : max 0 (line.2 - qty) = 0
      · simp only [h0, if_true]
        exact StdMap.positiveQty_erase_set hs _ _
      · simp only [h0, if_false]
        exact StdMap.positiveQty_set hs _ _
          (lt_of_le_of_ne (le_max_left _ _) (Ne.symm h0))

theorem positiveQty_run (ops : List LedgerOp) (inv : Inventory)
    (hops : ∀ op ∈ ops, op.addsPositive = true) (hst : inv.staysInInt ops = true)
    (h : inv.weapons.PositiveQty ∧ inv.supplies.PositiveQty) :
    (inv.run ops).weapons.PositiveQty ∧ (inv.run ops).supplies.PositiveQty := by
  induction ops generalizing inv with
  | nil => exact h
  | cons op rest ih =>
    have hst2 : inv.inRange op = true ∧ (inv.apply op).staysInInt rest = true := by
      simpa [Inventory.staysInInt] using hst
    have h1 := positiveQty_apply inv op (hops op (List.mem_cons_self _ _)) hst2.1 h
    exact ih (inv.apply op) (fun o ho => hops o (List.mem_cons_of_mem _ ho)) hst2.2 h1

end MilitaryProject.Inventory

namespace EndOfSemester.Inventory

theorem getWeaponQuantity_nonneg_eos (inv : Inventory) (h : inv.weapons.PositiveQty) (n : String) :
    0 ≤ inv.getWeaponQuantity n := by
  unfold getWeaponQuantity
  cases hf : inv.weapons.find n with
  | none => exact le_refl _
  | some line => exact le_of_lt (StdMap.positiveQty_find h hf)

theorem getSupplyQuantity_nonneg_eos (inv : Inventory) (h : inv.supplies.PositiveQty) (n : String) :
    0 ≤ inv.getSupplyQuantity n := by
  unfold getSupplyQuantity
  cases hf : inv.supplies.find n with
  | none => exact le_refl _
  | some line => exact le_of_lt (StdMap.positiveQty_find h hf)

theorem positiveQty_apply_eos (inv : Inventory) (op : LedgerOp) (hop : op.addsPositive = true)
    (hr : inv.inRange op = true)
    (h : inv.weapons.PositiveQty ∧ inv.supplies.PositiveQty) :
    (inv.apply op).weapons.PositiveQty ∧ (inv.apply op).supplies.PositiveQty := by
  obtain ⟨hw, hs⟩ := h
  cases op with
  | addWeapon weapon qty =>
    have hq : 0 < qty := by simpa [LedgerOp.addsPositive] using hop
    have hsup : (inv.addWeapon weapon qty).supplies = inv.supplies := by
      simp only [addWeapon]
      split_ifs <;> rfl
    refine ⟨?_, by show (inv.addWeapon weapon qty).supplies.PositiveQty; rw [hsup]; exact hs⟩
    show (inv.addWeapon weapon qty).weapons.PositiveQty
    rw [addWeapon_weapons_eos]
    cases hf : inv.weapons.find weapon.getName with
    | none => exact StdMap.positiveQty_set hw _ _ hq
    | some line =>
      have hin : inInt (line.2 + qty) = true := by
        simpa [Inventory.inRange, getWeaponQuantity, hf] using hr
      show (inv.weapons.set weapon.getName (line.1, wrapInt (line.2 + qty))).PositiveQty
      rw [wrapInt_of_inInt hin]
      exact StdMap.positiveQty_set hw _ _ (add_pos (StdMap.positiveQty_find hw hf) hq)
  | removeWeapon name qty =>
    show (inv.removeWeapon name qty).weapons.PositiveQty ∧
      (inv.removeWeapon name qty).supplies.PositiveQty
    unfold removeWeapon
    cases hf : inv.weapons.find name with
    | none => exact ⟨hw, hs⟩
    | some line =>
      by_cases h0 : line.2 - qty ≤ 0
      · simp only [h0, if_true]
        exact ⟨StdMap.positiveQty_erase_set hw _ _, hs⟩
      · simp only [h0, if_false]
        exact ⟨StdMap.positiveQty_set hw _ _ (not_le.mp h0), hs⟩
  | addSupply id desc qty =>
    have hq : 0 < qty := by simpa [LedgerOp.addsPositive] using hop
    have hwpn : (inv.addSupply id desc qty).weapons = inv.weapons := by
      simp only [addSupply]
      split_ifs <;> rfl
    refine ⟨by show (inv.addSupply id desc qty).weapons.PositiveQty; rw [hwpn]; exact hw, ?_⟩
    show (inv.addSupply id desc qty).supplies.PositiveQty
    rw [addSupply_supplies_eos]
    cases hf : inv.supplies.find id with
    | none => exact StdMap.positiveQty_set hs _ _ hq
    | some line =>
      have hin : inInt (line.2 + qty) = true := by
        simpa [Inventory.inRange, getSupplyQuantity, hf] using hr
      show (inv.supplies.set id (line.1, wrapInt (line.2 + qty))).PositiveQty
      rw [wrapInt_of_inInt hin]
      exact StdMap.positiveQty_set hs _ _ (add_pos (StdMap.positiveQty_find hs hf) hq)
  | removeSupply id qty =>
    show (inv.removeSupply id qty).weapons.PositiveQty ∧
      (inv.removeSupply id qty).supplies.PositiveQty
    unfold removeSupply
    cases hf : inv.supplies.find id with
    | none => exact ⟨hw, hs⟩
    | some line =>
      by_cases h0 : line.2 - qty ≤ 0
      · simp only [h0, if_true]
        exact ⟨hw, StdMap.positiveQty_erase_set hs _ _⟩
      · simp only [h0, if_false]
        exact ⟨hw, StdMap.positiveQty_set hs _ _ (not_le.mp h0)⟩

theorem positiveQty_run_eos (ops : List LedgerOp) (inv : Inventory)
    (hops : ∀ op ∈ ops, op.addsPositive = true) (hst : inv.staysInInt ops = true)
    (h : inv.weapons.PositiveQty ∧ inv.supplies.PositiveQty) :
    (inv.run ops).weapons.PositiveQty ∧ (inv.run ops).supplies.PositiveQty := by
  induction ops generalizing inv with
  | nil => exact h
  | cons op rest ih =>
    have hst2 : inv.inRange op = true ∧ (inv.apply op).staysInInt rest = true := by
      simpa [Inventory.staysInInt] using hst
    have h1 := positiveQty_apply_eos inv op (hops op (List.mem_cons_self _ _)) hst2.1 h
    exact ih (inv.apply op) (fun o ho => hops o (List.mem_cons_of_mem _ ho)) hst2.2 h1

end EndOfSemester.Inventory

/-- Claim C8, as the code has it.  The quantity invariant of the ledger holds as
long as the arithmetic stays within `int`, in `Military_project.cpp` and in
`Military_project_endofsemester.cpp`.  After any finite sequence of calls on a
new, empty `Inventory`, where `addWeapon` and `addSupply` receive strictly positive
quantities, `removeWeapon` and `removeSupply` receive any integers, and no sum or
difference formed by a call leaves `INT_MIN..INT_MAX`, every stored weapon line
and every stored supply line has a strictly positive quantity: no line with
quantity zero is retained, and `getWeaponQuantity` and `getSupplyQuantity` are
never negative. -/
theorem ledger_quantities_stay_positive_within_int (al al2 : AccessLevel)
    (ops : List MilitaryProject.LedgerOp) (ops2 : List EndOfSemester.LedgerOp) :
    ((∀ op ∈ ops, op.addsPositive = true) →
        (MilitaryProject.Inventory.new al).staysInInt ops = true →
        (∀ e ∈ ((MilitaryProject.Inventory.new al).run ops).weapons.entries, 0 < e.2.2) ∧
          (∀ e ∈ ((MilitaryProject.Inventory.new al).run ops).supplies.entries, 0 < e.2.2) ∧
          (∀ n, 0 ≤ ((MilitaryProject.Inventory.new al).run ops).getWeaponQuantity n) ∧
          (∀ n, 0 ≤ ((MilitaryProject.Inventory.new al).run ops).getSupplyQuantity n)) ∧
      ((∀ op ∈ ops2, op.addsPositive = true) →
        (EndOfSemester.Inventory.new al2).staysInInt ops2 = true →
        (∀ e ∈ ((EndOfSemester.Inventory.new al2).run ops2).weapons.entries, 0 < e.2.2) ∧
          (∀ e ∈ ((EndOfSemester.Inventory.new al2).run ops2).supplies.entries, 0 < e.2.2) ∧
          (∀ n, 0 ≤ ((EndOfSemester.Inventory.new al2).run ops2).getWeaponQuantity n) ∧
          (∀ n, 0 ≤ ((EndOfSemester.Inventory.new al2).run ops2).getSupplyQuantity n)) := by
  constructor
  · intro hops hst
    have h := MilitaryProject.Inventory.positiveQty_run ops (MilitaryProject.Inventory.new al)
      hops hst ⟨StdMap.positiveQty_empty, StdMap.positiveQty_empty⟩
    exact ⟨h.1, h.2, MilitaryProject.Inventory.getWeaponQuantity_nonneg _ h.1,
      MilitaryProject.Inventory.getSupplyQuantity_nonneg _ h.2⟩
  · intro hops hst
    have h := EndOfSemester.Inventory.positiveQty_run_eos ops2 (EndOfSemester.Inventory.new al2)
      hops hst ⟨StdMap.positiveQty_empty, StdMap.positiveQty_empty⟩
    exact ⟨h.1, h.2, EndOfSemester.Inventory.getWeaponQuantity_nonneg_eos _ h.1,
      EndOfSemester.Inventory.getSupplyQuantity_nonneg_eos _ h.2⟩

/-- Witness of `ledger_quantities_stay_positive_within_int`: 10 rifles stocked and
15 removed, 20 medkits stocked and -3 removed; every sum and difference is within
the range of `int`, the rifle line is gone, the medkit line holds 23, and neither
reported quantity is negative. -/
theorem ledger_quantities_stay_positive_within_int_witness :
    ((∀ op ∈ [MilitaryProject.LedgerOp.addWeapon MilitaryProject.main.rifle 10,
          MilitaryProject.LedgerOp.removeWeapon "Rifle" 15,
          MilitaryProject.LedgerOp.addSupply "MED01" "Medkit" 20,
          MilitaryProject.LedgerOp.removeSupply "MED01" (-3)], op.addsPositive = true) ∧
      (MilitaryProject.Inventory.new AccessLevel.SECRET).staysInInt
          [MilitaryProject.LedgerOp.addWeapon MilitaryProject.main.rifle 10,
            MilitaryProject.LedgerOp.removeWeapon "Rifle" 15,
            MilitaryProject.LedgerOp.addSupply "MED01" "Medkit" 20,
            MilitaryProject.LedgerOp.removeSupply "MED01" (-3)] = true ∧
      0 ≤ ((MilitaryProject.Inventory.new AccessLevel.SECRET).run
          [MilitaryProject.LedgerOp.addWeapon MilitaryProject.main.rifle 10,
            MilitaryProject.LedgerOp.removeWeapon "Rifle" 15,
            MilitaryProject.LedgerOp.addSupply "MED01" "Medkit" 20,
            MilitaryProject.LedgerOp.removeSupply "MED01" (-3)]).getWeaponQuantity "Rifle" ∧
      ((MilitaryProject.Inventory.new AccessLevel.SECRET).run
          [MilitaryProject.LedgerOp.addWeapon MilitaryProject.main.rifle 10,
            MilitaryProject.LedgerOp.removeWeapon "Rifle" 15,
            MilitaryProject.LedgerOp.addSupply "MED01" "Medkit" 20,
            MilitaryProject.LedgerOp.removeSupply "MED01" (-3)]).supplies.entries
        = [("MED01", ("Medkit", 23))]) ∧
    ((∀ op ∈ [EndOfSemester.LedgerOp.addWeapon EndOfSemester.Example.rifle 10,
          EndOfSemester.LedgerOp.removeWeapon "Rifle" 15,
          EndOfSemester.LedgerOp.addSupply "MED01" "Medkit" 20,
          EndOfSemester.LedgerOp.removeSupply "MED01" (-3)], op.addsPositive = true) ∧
      (EndOfSemester.Inventory.new AccessLevel.CONFIDENTIAL).staysInInt
          [EndOfSemester.LedgerOp.addWeapon EndOfSemester.Example.rifle 10,
            EndOfSemester.LedgerOp.removeWeapon "Rifle" 15,
            EndOfSemester.LedgerOp.addSupply "MED01" "Medkit" 20,
            EndOfSemester.LedgerOp.removeSupply "MED01" (-3)] = true ∧
      0 ≤ ((EndOfSemester.Inventory.new AccessLevel.CONFIDENTIAL).run
          [EndOfSemester.LedgerOp.addWeapon EndOfSemester.Example.rifle 10,
            EndOfSemester.LedgerOp.removeWeapon "Rifle" 15,
            EndOfSemester.LedgerOp.addSupply "MED01" "Medkit" 20,
            EndOfSemester.LedgerOp.removeSupply "MED01" (-3)]).getWeaponQuantity "Rifle" ∧
      ((EndOfSemester.Inventory.new AccessLevel.CONFIDENTIAL).run
          [EndOfSemester.LedgerOp.addWeapon EndOfSemester.Example.rifle 10,
            EndOfSemester.LedgerOp.removeWeapon "Rifle" 15,
            EndOfSemester.LedgerOp.addSupply "MED01" "Medkit" 20,
            EndOfSemester.LedgerOp.removeSupply "MED01" (-3)]).supplies.entries
        = [("MED01", ("Medkit", 23))]) :=
  ⟨⟨by decide, by decide,
    ((ledger_quantities_stay_positive_within_int AccessLevel.SECRET AccessLevel.CONFIDENTIAL
      [MilitaryProject.LedgerOp.addWeapon MilitaryProject.main.rifle 10,
        MilitaryProject.LedgerOp.removeWeapon "Rifle" 15,
        MilitaryProject.LedgerOp.addSupply "MED01" "Medkit" 20,
        MilitaryProject.LedgerOp.removeSupply "MED01" (-3)]
      [EndOfSemester.LedgerOp.addWeapon EndOfSemester.Example.rifle 10,
        EndOfSemester.LedgerOp.removeWeapon "Rifle" 15,
        EndOfSemester.LedgerOp.addSupply "MED01" "Medkit" 20,
        EndOfSemester.LedgerOp.removeSupply "MED01" (-3)]).1 (by decide) (by decide)).2.2.1
      "Rifle",
    by decide⟩,
   ⟨by decide, by decide,
    ((ledger_quantities_stay_positive_within_int AccessLevel.SECRET AccessLevel.CONFIDENTIAL
      [MilitaryProject.LedgerOp.addWeapon MilitaryProject.main.rifle 10,
        MilitaryProject.LedgerOp.removeWeapon "Rifle" 15,
        MilitaryProject.LedgerOp.addSupply "MED01" "Medkit" 20,
        MilitaryProject.LedgerOp.removeSupply "MED01" (-3)]
      [EndOfSemester.LedgerOp.addWeapon EndOfSemester.Example.rifle 10,
        EndOfSemester.LedgerOp.removeWeapon "Rifle" 15,
        EndOfSemester.LedgerOp.addSupply "MED01" "Medkit" 20,
        EndOfSemester.LedgerOp.removeSupply "MED01" (-3)]).2 (by decide) (by decide)).2.2.1
      "Rifle",
    by decide⟩⟩

/-- Counterexample to claim C8 as stated: on a new inventory, `addWeapon` with
2147483647, the greatest `int`, and then `addWeapon` with 1, both strictly
positive, leave a stored rifle line with quantity -2147483648, and
`getWeaponQuantity` reports that negative value.  This is so in both programs. -/
theorem ledger_overflow_counterexample :
    ((∀ op ∈ [MilitaryProject.LedgerOp.addWeapon MilitaryProject.main.rifle 2147483647,
          MilitaryProject.LedgerOp.addWeapon MilitaryProject.main.rifle 1],
        op.addsPositive = true) ∧
      ((MilitaryProject.Inventory.new AccessLevel.SECRET).run
          [MilitaryProject.LedgerOp.addWeapon MilitaryProject.main.rifle 2147483647,
            MilitaryProject.LedgerOp.addWeapon MilitaryProject.main.rifle 1]).weapons.entries
        = [("Rifle", (MilitaryProject.main.rifle, -2147483648))] ∧
      ((MilitaryProject.Inventory.new AccessLevel.SECRET).run
          [MilitaryProject.LedgerOp.addWeapon MilitaryProject.main.rifle 2147483647,
            MilitaryProject.LedgerOp.addWeapon MilitaryProject.main.rifle 1]).getWeaponQuantity
          "Rifle" < 0) ∧
    ((∀ op ∈ [EndOfSemester.LedgerOp.addWeapon EndOfSemester.Example.rifle 2147483647,
          EndOfSemester.LedgerOp.addWeapon EndOfSemester.Example.rifle 1],
        op.addsPositive = true) ∧
      ((EndOfSemester.Inventory.new AccessLevel.CONFIDENTIAL).run
          [EndOfSemester.LedgerOp.addWeapon EndOfSemester.Example.rifle 2147483647,
            EndOfSemester.LedgerOp.addWeapon EndOfSemester.Example.rifle 1]).weapons.entries
        = [("Rifle", (EndOfSemester.Example.rifle, -2147483648))] ∧
      ((EndOfSemester.Inventory.new AccessLevel.CONFIDENTIAL).run
          [EndOfSemester.LedgerOp.addWeapon EndOfSemester.Example.rifle 2147483647,
            EndOfSemester.LedgerOp.addWeapon EndOfSemester.Example.rifle 1]).getWeaponQuantity
          "Rifle" < 0) := by
  decide

/-! ## Viewing the inventory -/

/-- Claim C9, as the code has it.  Visibility is decided once for the inventory
as a whole, not per line.  A viewing soldier with clearance SECRET is shown the
listing of `displayInfo` exactly when SECRET meets or exceeds the inventory's own
required level (`Inventory::canAccess`), and otherwise only the text
"Access denied to inventory."  The listing of `displayInfo`, like that of
`toString`, has one row for every stored weapon line, whatever clearance the
weapon of the line requires, and the rows follow the lines in ascending key
order. -/
theorem viewInventory_gated_as_a_whole (inv : EndOfSemester.Inventory)
    (s : EndOfSemester.Soldier) :
    s.getAccessLevel = AccessLevel.SECRET →
      (EndOfSemester.MilitaryManagementSystem.viewInventory (some s) inv
          = if ClearanceScale.meetsOrExceeds AccessLevel.SECRET inv.requiredAccessLevel = true
            then inv.displayInfo else "Access denied to inventory.\n") ∧
        inv.displayInfo
          = "Inventory Access Level: " ++ toString inv.requiredAccessLevel.toInt ++ "\n"
              ++ "Weapons:\n" ++ String.join inv.weaponRows
              ++ "Supplies:\n" ++ String.join inv.supplyRows ∧
        inv.toString
          = "Inventory:\nWeapons:\n" ++ String.join inv.weaponRows
              ++ "Supplies:\n" ++ String.join inv.supplyRows ∧
        inv.weaponRows = inv.weapons.entries.map EndOfSemester.Inventory.weaponRow ∧
        (∀ line ∈ inv.weapons.entries,
          EndOfSemester.Inventory.weaponRow line ∈ inv.weaponRows) ∧
        inv.weapons.entries.Pairwise (fun a b => keyLess a.1 b.1) := by
  intro hs
  refine ⟨?_, rfl, rfl, rfl, ?_, inv.weapons.ascending⟩
  · have h1 : inv.canAccess s
        = ClearanceScale.meetsOrExceeds AccessLevel.SECRET inv.requiredAccessLevel := by
      rw [Bool.eq_iff_iff, ← toInt_ge_iff_meetsOrExceeds, ← hs]
      simp [EndOfSemester.Inventory.canAccess]
    simp only [EndOfSemester.MilitaryManagementSystem.viewInventory, h1]
  · intro line hline
    exact List.mem_map_of_mem _ hline

/-- Witness of `viewInventory_gated_as_a_whole`: S001 (SECRET) views the example
inventory, which is open to CONFIDENTIAL. -/
theorem viewInventory_gated_as_a_whole_witness :
    EndOfSemester.Example.alice.getAccessLevel = AccessLevel.SECRET ∧
      EndOfSemester.MilitaryManagementSystem.viewInventory (some EndOfSemester.Example.alice)
          EndOfSemester.Example.inventory
        = if ClearanceScale.meetsOrExceeds AccessLevel.SECRET
              EndOfSemester.Example.inventory.requiredAccessLevel = true
          then EndOfSemester.Example.inventory.displayInfo
          else "Access denied to inventory.\n" :=
  ⟨by decide,
    ((viewInventory_gated_as_a_whole EndOfSemester.Example.inventory
      EndOfSemester.Example.alice) (by decide)).1⟩

/-- Counterexample to claim C9 as stated: the example inventory, open to
CONFIDENTIAL, holds a line for the sniper rifle, which requires TOP_SECRET; the
soldier S001 has clearance SECRET, passes `Inventory::canAccess`, and the listing
shown contains the row of that line. -/
theorem viewInventory_shows_top_secret_line_counterexample :
    EndOfSemester.Example.alice.getAccessLevel = AccessLevel.SECRET ∧
      EndOfSemester.Example.inventory.canAccess EndOfSemester.Example.alice = true ∧
      ("Sniper", (EndOfSemester.Example.sniper, (3 : Int)))
        ∈ EndOfSemester.Example.inventory.weapons.entries ∧
      EndOfSemester.Example.sniper.getRequiredAccess = AccessLevel.TOP_SECRET ∧
      EndOfSemester.Example.inventory.weaponRows = ["- Rifle x10\n", "- Sniper x3\n"] ∧
      EndOfSemester.MilitaryManagementSystem.viewInventory (some EndOfSemester.Example.alice)
          EndOfSemester.Example.inventory
        = "Inventory Access Level: 1\nWeapons:\n- Rifle x10\n- Sniper x3\nSupplies:\n- MED01: Medkit x20\n" := by
  decide

/-! ## Revoking twice -/

theorem remove_if_eq_self {α : Type} (p : α → Bool) (l : List α)
    (h : ∀ x ∈ l, p x = false) : remove_if p l = l := by
  induction l with
  | nil => rfl
  | cons x xs ih =>
    unfold remove_if
    rw [h x (List.mem_cons_self _ _), ih (fun y hy => h y (List.mem_cons_of_mem _ hy))]
    rfl

theorem remove_if_remove_if {α : Type} (p : α → Bool) (l : List α) :
    remove_if p (remove_if p l) = remove_if p l :=
  remove_if_eq_self p _ (fun _ hx => not_of_mem_remove_if p l hx)

/-- Claim C11.  `Soldier::removeWeapon(n)` is idempotent, in `Military_project.cpp`
and in `Military_project_endofsemester.cpp`.  It is total (it cannot fail); on a
soldier with no assigned weapon named `n` it returns the soldier unchanged; and
applying it twice in a row gives the same soldier as applying it once. -/
theorem removeWeapon_idempotent (s : MilitaryProject.Soldier) (s2 : EndOfSemester.Soldier)
    (n : String) :
    (((∀ w ∈ s.assignedWeapons, w.getName ≠ n) → s.removeWeapon n = s) ∧
        (s.removeWeapon n).removeWeapon n = s.removeWeapon n) ∧
      (((∀ w ∈ s2.assignedWeapons, w.getName ≠ n) → s2.removeWeapon n = s2) ∧
        (s2.removeWeapon n).removeWeapon n = s2.removeWeapon n) := by
  refine ⟨⟨?_, ?_⟩, ⟨?_, ?_⟩⟩
  · intro h
    have e : remove_if (fun w : MilitaryProject.Weapon => decide (w.getName = n))
        s.assignedWeapons = s.assignedWeapons :=
      remove_if_eq_self _ _ (fun w hw => by simpa using h w hw)
    simp only [MilitaryProject.Soldier.removeWeapon, e]
  · simp only [MilitaryProject.Soldier.removeWeapon, remove_if_remove_if]
  · intro h
    have e : remove_if (fun w : EndOfSemester.Weapon => decide (w.getName = n))
        s2.assignedWeapons = s2.assignedWeapons :=
      remove_if_eq_self _ _ (fun w hw => by simpa using h w hw)
    simp only [EndOfSemester.Soldier.removeWeapon, e]
  · simp only [EndOfSemester.Soldier.removeWeapon, remove_if_remove_if]

/-- Witness of `removeWeapon_idempotent`: Alice holds the rifle only, in either
program; `removeWeapon("Drone")` returns her unchanged. -/
theorem removeWeapon_idempotent_witness :
    ((∀ w ∈ (MilitaryProject.main.alice.assignWeapon
          MilitaryProject.main.rifle).1.assignedWeapons, w.getName ≠ "Drone") ∧
      (MilitaryProject.main.alice.assignWeapon MilitaryProject.main.rifle).1.removeWeapon "Drone"
        = (MilitaryProject.main.alice.assignWeapon MilitaryProject.main.rifle).1) ∧
    ((∀ w ∈ (EndOfSemester.Example.alice.assignWeapon
          EndOfSemester.Example.rifle).assignedWeapons, w.getName ≠ "Drone") ∧
      (EndOfSemester.Example.alice.assignWeapon EndOfSemester.Example.rifle).removeWeapon "Drone"
        = EndOfSemester.Example.alice.assignWeapon EndOfSemester.Example.rifle) :=
  ⟨⟨by decide,
    (removeWeapon_idempotent
      (MilitaryProject.main.alice.assignWeapon MilitaryProject.main.rifle).1
      (EndOfSemester.Example.alice.assignWeapon EndOfSemester.Example.rifle) "Drone").1.1
      (by decide)⟩,
   ⟨by decide,
    (removeWeapon_idempotent
      (MilitaryProject.main.alice.assignWeapon MilitaryProject.main.rifle).1
      (EndOfSemester.Example.alice.assignWeapon EndOfSemester.Example.rifle) "Drone").2.1
      (by decide)⟩⟩

/-! ## Registering a soldier -/

/-- Claim C12, as the code has it.  `createSoldier` has no test for an id that is
already present and nothing to report one with: `soldiers[soldierId] = move(soldier)`
replaces the record stored under the id.  For every system and every id already
mapped, the soldier stored under the id afterwards is the newly constructed one,
with the new rank and clearance, no skill and no assigned weapon; the soldiers
under all other ids, the weapon types, the warzones and the inventory are as
before. -/
theorem createSoldier_replaces_existing (sys : EndOfSemester.MilitaryManagementSystem)
    (rank : EndOfSemester.MilitaryRank) (soldierId firstName lastName specialization : String)
    (experience : Int) (existing : EndOfSemester.Soldier) :
    sys.soldiers.find soldierId = some existing →
      (sys.createSoldier rank soldierId firstName lastName specialization
            experience).soldiers.find soldierId
          = some (EndOfSemester.Soldier.new soldierId firstName lastName rank specialization
              experience) ∧
        (EndOfSemester.Soldier.new soldierId firstName lastName rank specialization
            experience).getAccessLevel = rank.accessLevel ∧
        (EndOfSemester.Soldier.new soldierId firstName lastName rank specialization
            experience).assignedWeapons = [] ∧
        (∀ other, other ≠ soldierId →
          (sys.createSoldier rank soldierId firstName lastName specialization
              experience).soldiers.find other = sys.soldiers.find other) ∧
        (sys.createSoldier rank soldierId firstName lastName specialization
            experience).weaponTypes = sys.weaponTypes ∧
        (sys.createSoldier rank soldierId firstName lastName specialization
            experience).warzones = sys.warzones ∧
        (sys.createSoldier rank soldierId firstName lastName specialization
            experience).inventory = sys.inventory := by
  intro _
  refine ⟨?_, rfl, rfl, ?_, rfl, rfl, rfl⟩
  · exact StdMap.find_set_same _ _ _
  · intro other hne
    exact StdMap.find_set_other _ _ _ hne

/-- Witness of `createSoldier_replaces_existing`: S001 is registered and holds the
rifle; `create_soldier` with the id S001 again stores the new soldier. -/
theorem createSoldier_replaces_existing_witness :
    EndOfSemester.Example.systemWithRifle.soldiers.find "S001"
        = some (EndOfSemester.Example.alice.assignWeapon EndOfSemester.Example.rifle) ∧
      (EndOfSemester.Example.systemWithRifle.createSoldier EndOfSemester.Example.recruit "S001"
          "Eve" "Doe" "Medic" 2).soldiers.find "S001"
        = some (EndOfSemester.Soldier.new "S001" "Eve" "Doe" EndOfSemester.Example.recruit
            "Medic" 2) :=
  ⟨by decide,
    ((createSoldier_replaces_existing EndOfSemester.Example.systemWithRifle
      EndOfSemester.Example.recruit "S001" "Eve" "Doe" "Medic" 2
      (EndOfSemester.Example.alice.assignWeapon EndOfSemester.Example.rifle))
      (by decide)).1⟩

/-- Counterexample to claim C12 as stated: S001 is registered with clearance SECRET
and holds the rifle; `createSoldier` with the id S001 again and a CONFIDENTIAL rank
changes the record stored under S001: the clearance is now CONFIDENTIAL and the
assigned-weapon sequence is empty. -/
theorem createSoldier_duplicate_counterexample :
    (EndOfSemester.Example.systemWithRifle.soldiers.find "S001").map
        (fun s => (s.getAccessLevel, s.assignedWeapons))
      = some (AccessLevel.SECRET, [EndOfSemester.Example.rifle]) ∧
    ((EndOfSemester.Example.systemWithRifle.createSoldier EndOfSemester.Example.recruit "S001"
        "Eve" "Doe" "Medic" 2).soldiers.find "S001").map
        (fun s => (s.getAccessLevel, s.assignedWeapons))
      = some (AccessLevel.CONFIDENTIAL, []) ∧
    (EndOfSemester.Example.systemWithRifle.createSoldier EndOfSemester.Example.recruit "S001"
        "Eve" "Doe" "Medic" 2).soldiers.find "S001"
      ≠ EndOfSemester.Example.systemWithRifle.soldiers.find "S001" := by
  decide

/-! ## Monotonicity and agreement of the gates -/

theorem compare_ne_gt_iff_toInt_le (a b : AccessLevel) :
    ClearanceScale.compare a b ≠ Ordering.gt ↔ a.toInt ≤ b.toInt := by
  cases a <;> cases b <;> decide

theorem toInt_le_four (a : AccessLevel) : a.toInt ≤ 4 := by
  cases a <;> decide

theorem one_le_toInt (a : AccessLevel) : 1 ≤ a.toInt := by
  cases a <;> decide

namespace MilitaryProject.Soldier

theorem assignWeapon_appends_iff (s : Soldier) (w : Weapon) :
    (s.assignWeapon w).1.assignedWeapons = s.assignedWeapons ++ [w]
      ↔ s.rank.accessLevel.toInt ≥ w.requiredAccess.toInt := by
  unfold assignWeapon
  by_cases h : s.rank.getAccessLevel.toInt ≥ w.getRequiredAccess.toInt
  · have h2 : s.rank.accessLevel.toInt ≥ w.requiredAccess.toInt := h
    simp [h, h2]
  · have h2 : ¬ s.rank.accessLevel.toInt ≥ w.requiredAccess.toInt := h
    simp [h, h2]

end MilitaryProject.Soldier

theorem canAccess_iff_toInt_ge (s : EndOfSemester.Soldier) (r : AccessLevel) :
    s.canAccess r = true ↔ s.rank.accessLevel.toInt ≥ r.toInt := by
  simp [EndOfSemester.Soldier.canAccess, EndOfSemester.MilitaryRank.getAccessLevel]

/-- Claim C13.  Higher tiers dominate lower ones.  With `g <= g'` and `r' <= r` read
in the order CONFIDENTIAL < SECRET < TOP_SECRET < SCI (`compare` is not GREATER):
if `Soldier::canAccess` of `Military_project_endofsemester.cpp` authorizes a soldier
of clearance `g` for a requirement `r`, it authorizes a soldier of clearance `g'`
for `r` and the first soldier for `r'`; a soldier with clearance SCI is authorized
for every requirement, and every soldier for CONFIDENTIAL.  The same holds for the
check in `Soldier::assignWeapon` of `Military_project.cpp`, where being authorized
means that the weapon is appended to the assigned-weapon sequence. -/
theorem clearance_monotone (s s' : EndOfSemester.Soldier) (r r' : AccessLevel)
    (t t' : MilitaryProject.Soldier) (w w' : MilitaryProject.Weapon) :
    ((ClearanceScale.compare s.getAccessLevel s'.getAccessLevel ≠ Ordering.gt →
          ClearanceScale.compare r' r ≠ Ordering.gt → s.canAccess r = true →
          s'.canAccess r = true ∧ s.canAccess r' = true) ∧
        (s.getAccessLevel = AccessLevel.SCI → s.canAccess r = true) ∧
        s.canAccess AccessLevel.CONFIDENTIAL = true) ∧
      ((ClearanceScale.compare t.getAccessLevel t'.getAccessLevel ≠ Ordering.gt →
          ClearanceScale.compare w'.getRequiredAccess w.getRequiredAccess ≠ Ordering.gt →
          (t.assignWeapon w).1.assignedWeapons = t.assignedWeapons ++ [w] →
          (t'.assignWeapon w).1.assignedWeapons = t'.assignedWeapons ++ [w] ∧
            (t.assignWeapon w').1.assignedWeapons = t.assignedWeapons ++ [w']) ∧
        (t.getAccessLevel = AccessLevel.SCI →
          (t.assignWeapon w).1.assignedWeapons = t.assignedWeapons ++ [w]) ∧
        (w.getRequiredAccess = AccessLevel.CONFIDENTIAL →
          (t.assignWeapon w).1.assignedWeapons = t.assignedWeapons ++ [w])) := by
  refine ⟨⟨?_, ?_, ?_⟩, ⟨?_, ?_, ?_⟩⟩
  · intro hg hr h
    rw [compare_ne_gt_iff_toInt_le] at hg hr
    rw [canAccess_iff_toInt_ge] at h ⊢
    rw [canAccess_iff_toInt_ge]
    have hg2 : s.rank.accessLevel.toInt ≤ s'.rank.accessLevel.toInt := hg
    exact ⟨le_trans h hg2, le_trans hr h⟩
  · intro hs
    rw [canAccess_iff_toInt_ge]
    have e : s.rank.accessLevel = AccessLevel.SCI := hs
    rw [e]
    exact toInt_le_four r
  · rw [canAccess_iff_toInt_ge]
    exact one_le_toInt _
  · intro hg hr h
    rw [compare_ne_gt_iff_toInt_le] at hg hr
    rw [MilitaryProject.Soldier.assignWeapon_appends_iff] at h ⊢
    rw [MilitaryProject.Soldier.assignWeapon_appends_iff]
    have hg2 : t.rank.accessLevel.toInt ≤ t'.rank.accessLevel.toInt := hg
    have hr2 : w'.requiredAccess.toInt ≤ w.requiredAccess.toInt := hr
    exact ⟨le_trans h hg2, le_trans hr2 h⟩
  · intro ht
    rw [MilitaryProject.Soldier.assignWeapon_appends_iff]
    have e : t.rank.accessLevel = AccessLevel.SCI := ht
    rw [e]
    exact toInt_le_four _
  · intro hw
    rw [MilitaryProject.Soldier.assignWeapon_appends_iff]
    have e : w.requiredAccess = AccessLevel.CONFIDENTIAL := hw
    rw [e]
    exact one_le_toInt _

/-- Witness of `clearance_monotone`.  In the end-of-semester program S002
(CONFIDENTIAL) is authorized for CONFIDENTIAL, hence so is S001 (SECRET); S003 has
SCI and is authorized for TOP_SECRET.  In `Military_project.cpp` Alice (SECRET) is
granted the rifle (SECRET), hence so is Bob (TOP_SECRET), and Alice is granted the
default weapon (CONFIDENTIAL); a soldier with SCI is granted the drone. -/
theorem clearance_monotone_witness :
    (EndOfSemester.Example.bob.canAccess AccessLevel.CONFIDENTIAL = true ∧
      EndOfSemester.Example.alice.canAccess AccessLevel.CONFIDENTIAL = true) ∧
    (EndOfSemester.Example.carol.getAccessLevel = AccessLevel.SCI ∧
      EndOfSemester.Example.carol.canAccess AccessLevel.TOP_SECRET = true) ∧
    ((MilitaryProject.main.alice.assignWeapon MilitaryProject.main.rifle).1.assignedWeapons
        = MilitaryProject.main.alice.assignedWeapons ++ [MilitaryProject.main.rifle] ∧
      (MilitaryProject.main.bob.assignWeapon MilitaryProject.main.rifle).1.assignedWeapons
        = MilitaryProject.main.bob.assignedWeapons ++ [MilitaryProject.main.rifle] ∧
      (MilitaryProject.main.alice.assignWeapon default).1.assignedWeapons
        = MilitaryProject.main.alice.assignedWeapons ++ [default]) ∧
    (MilitaryProject.Example.carol.getAccessLevel = AccessLevel.SCI ∧
      (MilitaryProject.Example.carol.assignWeapon MilitaryProject.main.drone).1.assignedWeapons
        = MilitaryProject.Example.carol.assignedWeapons ++ [MilitaryProject.main.drone]) ∧
    ((default : MilitaryProject.Weapon).getRequiredAccess = AccessLevel.CONFIDENTIAL ∧
      (MilitaryProject.main.alice.assignWeapon default).1.assignedWeapons
        = MilitaryProject.main.alice.assignedWeapons ++ [default]) :=
  ⟨⟨by decide,
    ((clearance_monotone EndOfSemester.Example.bob EndOfSemester.Example.alice
      AccessLevel.CONFIDENTIAL AccessLevel.CONFIDENTIAL MilitaryProject.main.alice
      MilitaryProject.main.bob MilitaryProject.main.rifle default).1.1
      (by decide) (by decide) (by decide)).1⟩,
   ⟨by decide,
    (clearance_monotone EndOfSemester.Example.carol EndOfSemester.Example.alice
      AccessLevel.TOP_SECRET AccessLevel.CONFIDENTIAL MilitaryProject.main.alice
      MilitaryProject.main.bob MilitaryProject.main.rifle default).1.2.1 (by decide)⟩,
   ⟨by decide,
    ((clearance_monotone EndOfSemester.Example.bob EndOfSemester.Example.alice
      AccessLevel.CONFIDENTIAL AccessLevel.CONFIDENTIAL MilitaryProject.main.alice
      MilitaryProject.main.bob MilitaryProject.main.rifle default).2.1
      (by decide) (by decide) (by decide)).1,
    ((clearance_monotone EndOfSemester.Example.bob EndOfSemester.Example.alice
      AccessLevel.CONFIDENTIAL AccessLevel.CONFIDENTIAL MilitaryProject.main.alice
      MilitaryProject.main.bob MilitaryProject.main.rifle default).2.1
      (by decide) (by decide) (by decide)).2⟩,
   ⟨by decide,
    (clearance_monotone EndOfSemester.Example.bob EndOfSemester.Example.alice
      AccessLevel.CONFIDENTIAL AccessLevel.CONFIDENTIAL MilitaryProject.Example.carol
      MilitaryProject.main.bob MilitaryProject.main.drone default).2.2.1 (by decide)⟩,
   ⟨by decide,
    (clearance_monotone EndOfSemester.Example.bob EndOfSemester.Example.alice
      AccessLevel.CONFIDENTIAL AccessLevel.CONFIDENTIAL MilitaryProject.main.alice
      MilitaryProject.main.bob default default).2.2.2 (by decide)⟩⟩

/-- Claim C14.  Every gate takes the same decision.  In
`Military_project_endofsemester.cpp`, for every soldier `s` and every level `r`,
`Warzone::canAccess(s)` of a warzone requiring `r`, `Inventory::canAccess(s)` of an
inventory requiring `r` and `s.canAccess(r)` are equal, and equal to
`meetsOrExceeds` of the soldier's clearance and `r`.  In `Military_project.cpp` the
check inside `Soldier::assignWeapon` lets the weapon be appended exactly when
`Inventory::canAccess` of an inventory requiring the weapon's level answers true. -/
theorem gates_take_the_same_decision (s : EndOfSemester.Soldier) (r : AccessLevel)
    (zid zname zloc zdesc : String) (ws : StdMap (EndOfSemester.Weapon × Int))
    (ss : StdMap (String × Int)) (t : MilitaryProject.Soldier) (w : MilitaryProject.Weapon)
    (ws2 : StdMap (MilitaryProject.Weapon × Int)) :
    (EndOfSemester.Warzone.canAccess
          { id := zid, name := zname, location := zloc, description := zdesc,
            requiredAccessLevel := r } s = s.canAccess r ∧
        EndOfSemester.Inventory.canAccess
          { weapons := ws, supplies := ss, requiredAccessLevel := r } s = s.canAccess r ∧
        s.canAccess r = ClearanceScale.meetsOrExceeds s.getAccessLevel r) ∧
      ((t.assignWeapon w).1.assignedWeapons = t.assignedWeapons ++ [w] ↔
        MilitaryProject.Inventory.canAccess
          { weapons := ws2, supplies := ss, requiredAccessLevel := w.getRequiredAccess } t
          = true) := by
  refine ⟨⟨rfl, rfl, ?_⟩, ?_⟩
  · rw [Bool.eq_iff_iff, canAccess_iff_toInt_ge]
    exact toInt_ge_iff_meetsOrExceeds _ _
  · rw [MilitaryProject.Soldier.assignWeapon_appends_iff]
    simp [MilitaryProject.Inventory.canAccess, MilitaryProject.Soldier.getAccessLevel,
      MilitaryProject.MilitaryRank.getAccessLevel, MilitaryProject.Weapon.getRequiredAccess]

/-! ## Assigned weapons stay within the holder's clearance -/

namespace MilitaryProject

theorem SoldierCalls.rank_result_assignWeapon (s : Soldier) (w : Weapon) :
    (s.assignWeapon w).1.rank = s.rank := by
  unfold Soldier.assignWeapon
  split_ifs <;> rfl

theorem SoldierCalls.mem_assignWeapon {s : Soldier} {w x : Weapon}
    (h : x ∈ (s.assignWeapon w).1.assignedWeapons) :
    x ∈ s.assignedWeapons ∨
      (x = w ∧ s.rank.getAccessLevel.toInt ≥ w.getRequiredAccess.toInt) := by
  unfold Soldier.assignWeapon at h
  by_cases hc : s.rank.getAccessLevel.toInt ≥ w.getRequiredAccess.toInt
  · simp only [hc, if_true, List.mem_append, List.mem_singleton] at h
    rcases h with h | h
    · exact Or.inl h
    · exact Or.inr ⟨h, hc⟩
  · simp only [hc, if_false] at h
    exact Or.inl h

theorem SoldierCalls.within_clearance (c : SoldierCalls) :
    ∀ x ∈ c.result.assignedWeapons,
      c.result.rank.getAccessLevel.toInt ≥ x.getRequiredAccess.toInt := by
  induction c with
  | construct i fn ln r spec exp =>
    intro x hx
    simp [SoldierCalls.result, Soldier.new] at hx
  | addSkill s skill ih =>
    intro x hx
    exact ih x hx
  | assignWeapon s weapon ih =>
    intro x hx
    show (s.result.assignWeapon weapon).1.rank.getAccessLevel.toInt ≥ _
    rw [SoldierCalls.rank_result_assignWeapon]
    rcases SoldierCalls.mem_assignWeapon hx with h | ⟨h1, h2⟩
    · exact ih x h
    · rw [h1]; exact h2
  | removeWeapon s weaponName ih =>
    intro x hx
    exact ih x ((remove_if_sublist _ _).subset hx)
  | plus s other ih _ =>
    intro x hx
    exact ih x hx

end MilitaryProject

/-- Claim C15.  In `Military_project.cpp`, every soldier obtained from the
constructor by a finite sequence of calls of `addSkill`, `assignWeapon`,
`removeWeapon` and `operator+` (with a soldier obtained in the same way) holds
only weapons within its clearance: for each weapon of its assigned-weapon
sequence, the soldier's clearance meets or exceeds the weapon's required
clearance. -/
theorem assigned_weapons_within_clearance (c : MilitaryProject.SoldierCalls) :
    ∀ x ∈ c.result.assignedWeapons,
      ClearanceScale.meetsOrExceeds c.result.getAccessLevel x.getRequiredAccess = true := by
  intro x hx
  exact (toInt_ge_iff_meetsOrExceeds _ _).mp (MilitaryProject.SoldierCalls.within_clearance c x hx)

/-- Witness of `assigned_weapons_within_clearance`: Bob (TOP_SECRET) is granted the
drone and the rifle and gives the rifle back; Alice (SECRET) learns a skill, is
granted the rifle, is refused the drone, and is merged with Bob.  The result
holds the rifle only, which Alice's clearance covers. -/
theorem assigned_weapons_within_clearance_witness :
    (MilitaryProject.SoldierCalls.plus
        (MilitaryProject.SoldierCalls.assignWeapon
          (MilitaryProject.SoldierCalls.assignWeapon
            (MilitaryProject.SoldierCalls.addSkill
              (MilitaryProject.SoldierCalls.construct "S001" "Alice" "Smith"
                MilitaryProject.main.rank1 "Infantry" 0) "Sniper")
            MilitaryProject.main.rifle)
          MilitaryProject.main.drone)
        (MilitaryProject.SoldierCalls.removeWeapon
          (MilitaryProject.SoldierCalls.assignWeapon
            (MilitaryProject.SoldierCalls.assignWeapon
              (MilitaryProject.SoldierCalls.construct "S002" "Bob" "Jones"
                MilitaryProject.main.rank2 "Infantry" 0)
              MilitaryProject.main.drone)
            MilitaryProject.main.rifle) "Rifle")).result.assignedWeapons
        = [MilitaryProject.main.rifle] ∧
      ClearanceScale.meetsOrExceeds
        (MilitaryProject.SoldierCalls.plus
          (MilitaryProject.SoldierCalls.assignWeapon
            (MilitaryProject.SoldierCalls.assignWeapon
              (MilitaryProject.SoldierCalls.addSkill
                (MilitaryProject.SoldierCalls.construct "S001" "Alice" "Smith"
                  MilitaryProject.main.rank1 "Infantry" 0) "Sniper")
              MilitaryProject.main.rifle)
            MilitaryProject.main.drone)
          (MilitaryProject.SoldierCalls.removeWeapon
            (MilitaryProject.SoldierCalls.assignWeapon
              (MilitaryProject.SoldierCalls.assignWeapon
                (MilitaryProject.SoldierCalls.construct "S002" "Bob" "Jones"
                  MilitaryProject.main.rank2 "Infantry" 0)
                MilitaryProject.main.drone)
              MilitaryProject.main.rifle) "Rifle")).result.getAccessLevel
        MilitaryProject.main.rifle.getRequiredAccess = true :=
  ⟨by decide,
    assigned_weapons_within_clearance
      (MilitaryProject.SoldierCalls.plus
        (MilitaryProject.SoldierCalls.assignWeapon
          (MilitaryProject.SoldierCalls.assignWeapon
            (MilitaryProject.SoldierCalls.addSkill
              (MilitaryProject.SoldierCalls.construct "S001" "Alice" "Smith"
                MilitaryProject.main.rank1 "Infantry" 0) "Sniper")
            MilitaryProject.main.rifle)
          MilitaryProject.main.drone)
        (MilitaryProject.SoldierCalls.removeWeapon
          (MilitaryProject.SoldierCalls.assignWeapon
            (MilitaryProject.SoldierCalls.assignWeapon
              (MilitaryProject.SoldierCalls.construct "S002" "Bob" "Jones"
                MilitaryProject.main.rank2 "Infantry" 0)
              MilitaryProject.main.drone)
            MilitaryProject.main.rifle) "Rifle"))
      MilitaryProject.main.rifle (by decide)⟩

/-! ## The two ways of consuming stock -/

namespace StdMap

theorem findIn_map {A B : Type} (g : A → B) (l : List (String × A)) (k : String) :
    findIn (l.map (fun e => (e.1, g e.2))) k = (findIn l k).map g := by
  induction l with
  | nil => rfl
  | cons hd tl ih =>
    obtain ⟨k', v'⟩ := hd
    by_cases h : k' = k
    · simp [findIn, h]
    · simp [findIn, h, ih]

theorem setIn_map {A B : Type} (g : A → B) (l : List (String × A)) (k : String) (v : A) :
    (setIn l k v).map (fun e => (e.1, g e.2))
      = setIn (l.map (fun e => (e.1, g e.2))) k (g v) := by
  induction l with
  | nil => rfl
  | cons hd tl ih =>
    obtain ⟨k', v'⟩ := hd
    by_cases h1 : keyLess k k'
    · simp [setIn, h1]
    · by_cases h2 : k = k'
      · subst h2; simp [setIn, keyLess_irrefl]
      · simp [setIn, h1, h2, ih]

theorem eraseIn_map {A B : Type} (g : A → B) (l : List (String × A)) (k : String) :
    (eraseIn l k).map (fun e => (e.1, g e.2))
      = eraseIn (l.map (fun e => (e.1, g e.2))) k := by
  induction l with
  | nil => rfl
  | cons hd tl ih =>
    obtain ⟨k', v'⟩ := hd
    by_cases h : k' = k
    · simp [eraseIn, h]
    · simp [eraseIn, h, ih]

theorem eraseIn_setIn_value {V : Type} (l : List (String × V)) (k : String) (a b : V) :
    eraseIn (setIn l k a) k = eraseIn (setIn l k b) k := by
  induction l with
  | nil => simp [setIn, eraseIn]
  | cons hd tl ih =>
    obtain ⟨k', v'⟩ := hd
    by_cases h1 : keyLess k k'
    · simp [setIn, h1, eraseIn]
    · by_cases h2 : k = k'
      · subst h2; simp [setIn, keyLess_irrefl, eraseIn]
      · simp [setIn, h1, h2, eraseIn, Ne.symm h2, ih]

end StdMap

namespace MilitaryProject.Inventory

theorem weaponQuantities_removeWeapon (inv : Inventory) (name : String) (qty : Int) :
    (inv.removeWeapon name qty).weaponQuantities
      = match StdMap.findIn inv.weaponQuantities name with
        | none => inv.weaponQuantities
        | some q =>
          if max 0 (q - qty) = 0 then
            StdMap.eraseIn (StdMap.setIn inv.weaponQuantities name (max 0 (q - qty))) name
          else StdMap.setIn inv.weaponQuantities name (max 0 (q - qty)) := by
  unfold weaponQuantities
  rw [removeWeapon_weapons, StdMap.findIn_map (fun v : Weapon × Int => v.2)]
  cases h : inv.weapons.find name with
  | none =>
    have h' : StdMap.findIn inv.weapons.entries name = none := h
    simp [h']
  | some line =>
    have h' : StdMap.findIn inv.weapons.entries name = some line := h
    by_cases h0 : max 0 (line.2 - qty) = 0
    · simp only [h', h0, if_true, Option.map_some', StdMap.erase, StdMap.set]
      rw [StdMap.eraseIn_map (fun v : Weapon × Int => v.2),
        StdMap.setIn_map (fun v : Weapon × Int => v.2)]
    · simp only [h', h0, if_false, Option.map_some', StdMap.set]
      rw [StdMap.setIn_map (fun v : Weapon × Int => v.2)]

theorem getWeaponQuantity_eq_findIn (inv : Inventory) (n : String) :
    inv.getWeaponQuantity n = (StdMap.findIn inv.weaponQuantities n).getD 0 := by
  unfold getWeaponQuantity weaponQuantities
  rw [StdMap.findIn_map (fun v : Weapon × Int => v.2)]
  have e : inv.weapons.find n = StdMap.findIn inv.weapons.entries n := rfl
  rw [e]
  cases StdMap.findIn inv.weapons.entries n <;> rfl

end MilitaryProject.Inventory

namespace EndOfSemester.Inventory

theorem weaponQuantities_removeWeapon_eos (inv : Inventory) (name : String) (qty : Int) :
    (inv.removeWeapon name qty).weaponQuantities
      = match StdMap.findIn inv.weaponQuantities name with
        | none => inv.weaponQuantities
        | some q =>
          if q - qty ≤ 0 then
            StdMap.eraseIn (StdMap.setIn inv.weaponQuantities name (q - qty)) name
          else StdMap.setIn inv.weaponQuantities name (q - qty) := by
  unfold weaponQuantities removeWeapon
  rw [StdMap.findIn_map (fun v : Weapon × Int => v.2)]
  cases h : inv.weapons.find name with
  | none =>
    have h' : StdMap.findIn inv.weapons.entries name = none := h
    simp [h']
  | some line =>
    have h' : StdMap.findIn inv.weapons.entries name = some line := h
    by_cases h0 : line.2 - qty ≤ 0
    · simp only [h', h0, if_true, Option.map_some', StdMap.erase, StdMap.set]
      rw [StdMap.eraseIn_map (fun v : Weapon × Int => v.2),
        StdMap.setIn_map (fun v : Weapon × Int => v.2)]
    · simp only [h', h0, if_false, Option.map_some', StdMap.set]
      rw [StdMap.setIn_map (fun v : Weapon × Int => v.2)]

theorem getWeaponQuantity_eq_findIn_eos (inv : Inventory) (n : String) :
    inv.getWeaponQuantity n = (StdMap.findIn inv.weaponQuantities n).getD 0 := by
  unfold getWeaponQuantity weaponQuantities
  rw [StdMap.findIn_map (fun v : Weapon × Int => v.2)]
  have e : inv.weapons.find n = StdMap.findIn inv.weapons.entries n := rfl
  rw [e]
  cases StdMap.findIn inv.weapons.entries n <;> rfl

end EndOfSemester.Inventory

/-- Claim C16.  The two implementations of consuming stock agree.  Whenever an
inventory of `Military_project.cpp` and one of `Military_project_endofsemester.cpp`
hold the same name-to-quantity mapping (any integer quantities), then for every
name and every integer `qty` the mappings after `removeWeapon(name, qty)` are
the same: the same keys in the same order with the same quantities, and so the
same `getWeaponQuantity` for every name. -/
theorem removeWeapon_variants_agree (inv : MilitaryProject.Inventory)
    (inv2 : EndOfSemester.Inventory) (name : String) (qty : Int) :
    inv.weaponQuantities = inv2.weaponQuantities →
      (inv.removeWeapon name qty).weaponQuantities
          = (inv2.removeWeapon name qty).weaponQuantities ∧
        (inv.removeWeapon name qty).weapons.entries.map Prod.fst
          = (inv2.removeWeapon name qty).weapons.entries.map Prod.fst ∧
        ∀ n, (inv.removeWeapon name qty).getWeaponQuantity n
          = (inv2.removeWeapon name qty).getWeaponQuantity n := by
  intro hq
  have h1 : (inv.removeWeapon name qty).weaponQuantities
      = (inv2.removeWeapon name qty).weaponQuantities := by
    rw [MilitaryProject.Inventory.weaponQuantities_removeWeapon,
      EndOfSemester.Inventory.weaponQuantities_removeWeapon_eos, hq]
    cases StdMap.findIn inv2.weaponQuantities name with
    | none => rfl
    | some q =>
      by_cases h0 : q - qty ≤ 0
      · have hm : max 0 (q - qty) = 0 := max_eq_left h0
        simp only [h0, hm, if_true]
        exact StdMap.eraseIn_setIn_value _ _ _ _
      · have hpos : 0 < q - qty := not_le.mp h0
        have hm : max 0 (q - qty) = q - qty := max_eq_right (le_of_lt hpos)
        have hne : ¬ (q - qty = 0) := ne_of_gt hpos
        simp only [h0, hm, hne, if_false]
  refine ⟨h1, ?_, ?_⟩
  · have e1 : (inv.removeWeapon name qty).weapons.entries.map Prod.fst
        = (inv.removeWeapon name qty).weaponQuantities.map Prod.fst := by
      simp [MilitaryProject.Inventory.weaponQuantities, Function.comp_def]
    have e2 : (inv2.removeWeapon name qty).weapons.entries.map Prod.fst
        = (inv2.removeWeapon name qty).weaponQuantities.map Prod.fst := by
      simp [EndOfSemester.Inventory.weaponQuantities, Function.comp_def]
    rw [e1, e2, h1]
  · intro n
    rw [MilitaryProject.Inventory.getWeaponQuantity_eq_findIn,
      EndOfSemester.Inventory.getWeaponQuantity_eq_findIn_eos, h1]

/-- Witness of `removeWeapon_variants_agree`: both inventories hold 10 rifles;
after `removeWeapon("Rifle", 4)` both hold 6, after `removeWeapon("Rifle", 15)`
both hold no line. -/
theorem removeWeapon_variants_agree_witness :
    ((MilitaryProject.Inventory.new AccessLevel.SECRET).addWeapon MilitaryProject.main.rifle
          10).weaponQuantities
        = ((EndOfSemester.Inventory.new AccessLevel.CONFIDENTIAL).addWeapon
            EndOfSemester.Example.rifle 10).weaponQuantities ∧
      (((MilitaryProject.Inventory.new AccessLevel.SECRET).addWeapon MilitaryProject.main.rifle
          10).removeWeapon "Rifle" 4).weaponQuantities
        = (((EndOfSemester.Inventory.new AccessLevel.CONFIDENTIAL).addWeapon
            EndOfSemester.Example.rifle 10).removeWeapon "Rifle" 4).weaponQuantities ∧
      (((MilitaryProject.Inventory.new AccessLevel.SECRET).addWeapon MilitaryProject.main.rifle
          10).removeWeapon "Rifle" 4).weaponQuantities = [("Rifle", 6)] ∧
      (((MilitaryProject.Inventory.new AccessLevel.SECRET).addWeapon MilitaryProject.main.rifle
          10).removeWeapon "Rifle" 15).weaponQuantities
        = (((EndOfSemester.Inventory.new AccessLevel.CONFIDENTIAL).addWeapon
            EndOfSemester.Example.rifle 10).removeWeapon "Rifle" 15).weaponQuantities :=
  ⟨by decide,
    ((removeWeapon_variants_agree
      ((MilitaryProject.Inventory.new AccessLevel.SECRET).addWeapon MilitaryProject.main.rifle 10)
      ((EndOfSemester.Inventory.new AccessLevel.CONFIDENTIAL).addWeapon
        EndOfSemester.Example.rifle 10) "Rifle" 4) (by decide)).1,
    by decide,
    ((removeWeapon_variants_agree
      ((MilitaryProject.Inventory.new AccessLevel.SECRET).addWeapon MilitaryProject.main.rifle 10)
      ((EndOfSemester.Inventory.new AccessLevel.CONFIDENTIAL).addWeapon
        EndOfSemester.Example.rifle 10) "Rifle" 15) (by decide)).1⟩

/-! ## Combining two weapons -/

